import Mathlib

/-!
Shallow embedding of `src/build.py` (daily-news-web).

The embedding covers the Markdown parser `parse_markdown` and the HTML
renderer `generate_html` with its inner list generators.  Python strings are
modelled by Lean `String`; all string scanning is re-implemented with
structurally recursive functions over `List Char` so that every definition
reduces inside the kernel.  `None`-dereferences (Python `TypeError`) are
modelled by an `Option` result: `none` marks the raised exception.

Notes on fidelity:
* `str.strip()` strips Unicode whitespace in Python; `trimStr` strips the
  ASCII whitespace characters recognised by `Char.isWhitespace`, which agrees
  on every input exercised here.
* `\d` in the date regex matches Unicode digits in Python; `Char.isDigit`
  matches `0`-`9`, which agrees on the ASCII dates the program handles.
* Dict fields accessed via `.get(k, default)` are modelled as record fields
  holding the value that `.get` returns.
-/

namespace DailyNews

/-- `str.strip()` on a line (ASCII whitespace). -/
def trimStr (s : String) : String :=
  String.mk (((s.toList.dropWhile Char.isWhitespace).reverse.dropWhile
    Char.isWhitespace).reverse)

/-- `line.startswith(p)`. -/
def startsWithStr (p s : String) : Bool :=
  p.toList.isPrefixOf s.toList

/-- `line.strip(c)`: remove every leading and trailing occurrence of `c`. -/
def stripAll (c : Char) (s : String) : String :=
  String.mk (((s.toList.dropWhile (· = c)).reverse.dropWhile (· = c)).reverse)

/-- Does the list start with `dddd-dd-dd` (the regex `\d{4}-\d{2}-\d{2}`)? -/
def isDateAt : List Char → Bool
  | a :: b :: c :: d :: e :: f :: g :: h :: i :: j :: _ =>
      a.isDigit && b.isDigit && c.isDigit && d.isDigit && e = '-' &&
      f.isDigit && g.isDigit && h = '-' && i.isDigit && j.isDigit
  | _ => false

/-- `re.search(r'(\d{4}-\d{2}-\d{2})', line)`: leftmost match of the
fixed-width date pattern. -/
def findDate : List Char → Option String
  | [] => none
  | c :: cs =>
      if isDateAt (c :: cs) then some (String.mk ((c :: cs).take 10))
      else findDate cs

/-- Scan for the lazy group `(.+?)\)\*\*` of the title/url regex: the
shortest non-empty `u` followed by the literal `)**`. -/
def findUrl (acc : List Char) : List Char → Option String
  | [] => none
  | c :: cs =>
      if [')', '*', '*'].isPrefixOf cs then some (String.mk (acc ++ [c]))
      else findUrl (acc ++ [c]) cs

/-- Scan for the lazy group `(.+?)\]\(` of `re.match(r'\*\*\[(.+?)\]\((.+?)\)\*\*', line)`:
the shortest non-empty title followed by `](` after which the url part
matches; on failure of the url part the title keeps growing (regex
backtracking). -/
def findTitle (acc : List Char) : List Char → Option (String × String)
  | [] => none
  | c :: cs =>
      if [']', '('].isPrefixOf cs then
        match findUrl [] (cs.drop 2) with
        | some u => some (String.mk (acc ++ [c]), u)
        | none => findTitle (acc ++ [c]) cs
      else findTitle (acc ++ [c]) cs

/-- `re.match(r'\*\*\[(.+?)\]\((.+?)\)\*\*', line)` (a prefix match). -/
def matchTitleUrl (line : String) : Option (String × String) :=
  if startsWithStr "**[" line then findTitle [] (line.toList.drop 3)
  else none

/-- Scan for the lazy group of `re.match(r'- \*\*(.+?)\*\*：(.+)', line)`:
the shortest non-empty topic followed by `**：` and a non-empty rest. -/
def findTopic (acc : List Char) : List Char → Option (String × String)
  | [] => none
  | c :: cs =>
      if ['*', '*', '：'].isPrefixOf cs ∧ cs.drop 3 ≠ [] then
        some (String.mk (acc ++ [c]), String.mk (cs.drop 3))
      else findTopic (acc ++ [c]) cs

/-- `re.match(r'- \*\*(.+?)\*\*：(.+)', line)`. -/
def matchSummaryBullet (line : String) : Option (String × String) :=
  if startsWithStr "- **" line then findTopic [] (line.toList.drop 4)
  else none

/-- `str.split('\n')` on a character list. -/
def splitLinesAux (acc : List Char) : List Char → List String
  | [] => [String.mk acc]
  | c :: cs =>
      if c = '\n' then String.mk acc :: splitLinesAux [] cs
      else splitLinesAux (acc ++ [c]) cs

/-- `md_content.split('\n')`. -/
def splitLines (s : String) : List String :=
  splitLinesAux [] s.toList

/-! ## Data model (§ `parse_markdown`, lines 349-443 of `src/build.py`) -/

/-- A parsed article entry: `{'title': '', 'url': '', 'summary': '', 'meta': ''}`. -/
structure Article where
  title : String
  url : String
  summary : String
  meta : String
deriving DecidableEq, Repr

/-- A parsed summary bullet: `{'topic': ..., 'content': ...}`. -/
structure SummaryItem where
  topic : String
  content : String
deriving DecidableEq, Repr

/-- The values `current_section` ranges over once set. -/
inductive SecName where
  | summary
  | five_star
  | four_star
  | worth_viewing
deriving DecidableEq, Repr

/-- The `sections` dict returned by `parse_markdown`.  The `date` key is only
present when a title line matched, hence `Option`; `title` is initialised to
`''` and never assigned. -/
structure Report where
  date : Option String
  title : String
  summary : List SummaryItem
  five_star : List Article
  four_star : List Article
  worth_viewing : List Article
deriving DecidableEq, Repr

/-- The loop state of `parse_markdown`: the `sections` dict under
construction plus `current_section` and `current_item`. -/
structure ParseState where
  date : Option String
  summary : List SummaryItem
  five_star : List Article
  four_star : List Article
  worth_viewing : List Article
  current_section : Option SecName
  current_item : Option Article
deriving DecidableEq, Repr

/-- `sections[current_section].append(item)`.  Every call site in the source
guards `current_section` to one of the three rating tiers, so the `summary`
case is unreachable and left as the identity. -/
def ParseState.appendArt (st : ParseState) (sec : SecName) (a : Article) :
    ParseState :=
  match sec with
  | .summary => st
  | .five_star => { st with five_star := st.five_star ++ [a] }
  | .four_star => { st with four_star := st.four_star ++ [a] }
  | .worth_viewing => { st with worth_viewing := st.worth_viewing ++ [a] }

/-- The rating-tier header branches (lines 381-402).  The source assigns
`current_section = <new tier>` *before* appending, so a pending
`current_item` is appended to the list of the tier being entered; the
`current_section != 'summary'` guard in the four-star and worth-viewing
branches is dead, since `current_section` was just reassigned to the new
tier. -/
def enterTier (st : ParseState) (t : SecName) : ParseState :=
  let st' := { st with current_section := some t }
  match st.current_item with
  | some it => { st'.appendArt t it with current_item := none }
  | none => { st' with current_item := none }

/-- The article-line branches (lines 414-437), reached when
`current_section` is one of the three rating tiers.  A meta line or a
summary-continuation line with `current_item is None` raises `TypeError`
in Python (`current_item['meta']` / `current_item['summary']` on `None`),
modelled as `none`. -/
def tierLine (st : ParseState) (sec : SecName) (line : String) :
    Option ParseState :=
  if startsWithStr "**[" line then
    let st1 := match st.current_item with
      | some it => st.appendArt sec it
      | none => st
    let tu := match matchTitleUrl line with
      | some p => p
      | none => ("", "")
    some { st1 with current_item := some ⟨tu.1, tu.2, "", ""⟩ }
  else if startsWithStr "\x60" line ∧ line.toList.contains '·' then
    match st.current_item with
    | none => none
    | some it =>
        some { st with
          current_item := some ({ it with meta := stripAll (Char.ofNat 96) line }) }
  else if (¬ startsWithStr "---" line) ∧ (¬ startsWithStr "*Generated" line) then
    match st.current_item with
    | none => none
    | some it =>
        some { st with
          current_item := some ({ it with
            summary := if it.summary = "" then line else it.summary ++ " " ++ line }) }
  else
    some st

/-- One iteration of the `for line in lines` loop of `parse_markdown`. -/
def parseLine (st : ParseState) (raw : String) : Option ParseState :=
  let line := trimStr raw
  if line = "" then some st
  else if startsWithStr "# Daily News" line then
    some { st with date := match findDate line.toList with
      | some d => some d
      | none => st.date }
  else if line = "## 导读" then
    some { st with current_section := some .summary }
  else if line = "## 五星推荐" then some (enterTier st .five_star)
  else if line = "## 四星推荐" then some (enterTier st .four_star)
  else if line = "## 值得一看" then some (enterTier st .worth_viewing)
  else
    match st.current_section with
    | none => some st
    | some .summary =>
        if startsWithStr "- **" line then
          match matchSummaryBullet line with
          | some tc => some { st with summary := st.summary ++ [⟨tc.1, tc.2⟩] }
          | none => some st
        else some st
    | some .five_star => tierLine st .five_star line
    | some .four_star => tierLine st .four_star line
    | some .worth_viewing => tierLine st .worth_viewing line

/-- The whole `for` loop. -/
def processLines (st : ParseState) : List String → Option ParseState
  | [] => some st
  | l :: ls =>
      match parseLine st l with
      | none => none
      | some st' => processLines st' ls

/-- The trailing flush (lines 439-441): the last pending item is appended
only when `current_section` is a rating tier, then the dict is returned. -/
def finalizeState (st : ParseState) : Report :=
  let st' := match st.current_item, st.current_section with
    | some it, some .five_star => st.appendArt .five_star it
    | some it, some .four_star => st.appendArt .four_star it
    | some it, some .worth_viewing => st.appendArt .worth_viewing it
    | _, _ => st
  ⟨st'.date, "", st'.summary, st'.five_star, st'.four_star, st'.worth_viewing⟩

/-- The initial `sections` dict and loop variables. -/
def initState : ParseState :=
  ⟨none, [], [], [], [], none, none⟩

/-- `parse_markdown` (lines 349-443).  `none` models an uncaught Python
exception. -/
def parse_markdown (md : String) : Option Report :=
  (processLines initState (splitLines md)).map finalizeState

/-! ## Renderer (`generate_html`, lines 445-1101 of `src/build.py`) -/

/-- A Product Hunt record as consumed by `generate_product_list`; each field
holds the value the corresponding `.get` call returns. -/
structure Product where
  name : String
  url : String
  description : String
deriving DecidableEq, Repr

/-- A GitHub trending record as consumed by `generate_github_list`.
`stars` is modelled by its interpolated string form. -/
structure Repo where
  name : String
  url : String
  description : String
  language : String
  stars : String
deriving DecidableEq, Repr

/-- An AI-model record as consumed by `generate_ai_models_list`; `rank` is
modelled by its interpolated string form. -/
structure AIModel where
  name : String
  provider : String
  description : String
  url : String
  rank : String
deriving DecidableEq, Repr

/-- An AI-tool record as consumed by `generate_ai_tools_list`. -/
structure AITool where
  name : String
  category : String
  description : String
  url : String
deriving DecidableEq, Repr

/-- An AI-trend record as consumed by `generate_ai_trends_list`. -/
structure AITrend where
  title : String
  description : String
  category : String
deriving DecidableEq, Repr

/-- An AI-news record as consumed by `generate_ai_news_list`. -/
structure NewsItem where
  title : String
  url : String
  source : String
deriving DecidableEq, Repr

/-- The language → colour dict of `generate_github_list`
(src/build.py:487-496); `.get(language, \x27#666666\x27)`. -/
def langColorOf (language : String) : String :=
  if language = "Python" then "#3572A5"
  else if language = "JavaScript" then "#f1e05a"
  else if language = "TypeScript" then "#2b7489"
  else if language = "Go" then "#00ADD8"
  else if language = "Rust" then "#dea584"
  else if language = "Java" then "#b07219"
  else if language = "C++" then "#f34b7d"
  else if language = "C" then "#555555"
  else "#666666"

/-- The `star_icons` dict (src/build.py:462-466); only the keys 5, 4 and 3
exist, and only those are ever looked up. -/
def star_icons (n : Nat) : String :=
  if n = 5 then "★★★★★"
  else if n = 4 then "★★★★☆"
  else if n = 3 then "★★★☆☆"
  else ""

/-- One Product Hunt entry (src/build.py:472-480). -/
def productEntry (i : Nat) (p : Product) : String :=
    "\n            <article class=\"news-item\">\n                <div class=\"news-header\">\n                    <span class=\"rank-num\">#" ++
    toString i ++
    "</span>\n                    <a href=\"" ++
    p.url ++
    "\" class=\"news-title\" target=\"_blank\" rel=\"noopener\">" ++
    p.name ++
    "</a>\n                </div>\n                <p class=\"news-summary\">" ++
    p.description ++
    "</p>\n            </article>\n            "

/-- One GitHub trending entry (src/build.py:498-509). -/
def repoEntry (r : Repo) : String :=
    "\n            <article class=\"news-item\">\n                <div class=\"news-header\">\n                    <a href=\"" ++
    r.url ++
    "\" class=\"news-title\" target=\"_blank\" rel=\"noopener\">" ++
    r.name ++
    "</a>\n                    <span class=\"news-meta\">\n                        <span class=\"lang-dot\" style=\"background: " ++
    langColorOf r.language ++
    "\"></span>\n                        " ++
    r.language ++
    " · ⭐ " ++
    r.stars ++
    "\n                    </span>\n                </div>\n                <p class=\"news-summary\">" ++
    r.description ++
    "</p>\n            </article>\n            "

/-- One AI-model entry (src/build.py:516-525). -/
def modelEntry (m : AIModel) : String :=
    "\n            <article class=\"news-item\">\n                <div class=\"news-header\">\n                    <span class=\"rank-num\">#" ++
    m.rank ++
    "</span>\n                    <a href=\"" ++
    m.url ++
    "\" class=\"news-title\" target=\"_blank\" rel=\"noopener\">" ++
    m.name ++
    "</a>\n                    <span class=\"news-meta\">" ++
    m.provider ++
    "</span>\n                </div>\n                <p class=\"news-summary\">" ++
    m.description ++
    "</p>\n            </article>\n            "

/-- One AI-tool entry (src/build.py:532-540). -/
def toolEntry (t : AITool) : String :=
    "\n            <article class=\"news-item\">\n                <div class=\"news-header\">\n                    <a href=\"" ++
    t.url ++
    "\" class=\"news-title\" target=\"_blank\" rel=\"noopener\">" ++
    t.name ++
    "</a>\n                    <span class=\"news-meta tool-category\">" ++
    t.category ++
    "</span>\n                </div>\n                <p class=\"news-summary\">" ++
    t.description ++
    "</p>\n            </article>\n            "

/-- One AI-trend entry (src/build.py:547-555). -/
def trendEntry (t : AITrend) : String :=
    "\n            <article class=\"news-item trend-item\">\n                <div class=\"trend-header\">\n                    <span class=\"trend-category\">" ++
    t.category ++
    "</span>\n                    <span class=\"trend-title\">" ++
    t.title ++
    "</span>\n                </div>\n                <p class=\"news-summary\">" ++
    t.description ++
    "</p>\n            </article>\n            "

/-- One AI-news entry (src/build.py:568-575). -/
def newsEntry (n : NewsItem) : String :=
    "\n            <article class=\"news-item\">\n                <div class=\"news-header\">\n                    <a href=\"" ++
    n.url ++
    "\" class=\"news-title\" target=\"_blank\" rel=\"noopener\">" ++
    n.title ++
    "</a>\n                    <span class=\"news-meta\">" ++
    n.source ++
    "</span>\n                </div>\n            </article>\n            "

/-- One summary row (src/build.py:589-594). -/
def summaryItemHtml (it : SummaryItem) : String :=
    "\n        <div class=\"summary-item\">\n            <span class=\"summary-topic\">" ++
    it.topic ++
    "</span>\n            <span class=\"summary-content\">" ++
    it.content ++
    "</span>\n        </div>\n        "

/-- One article entry of `generate_articles` (src/build.py:602-610). -/
def articleEntry (a : Article) : String :=
    "\n            <article class=\"news-item\">\n                <div class=\"news-header\">\n                    <a href=\"" ++
    a.url ++
    "\" class=\"news-title\" target=\"_blank\" rel=\"noopener\">" ++
    a.title ++
    "</a>\n                    <span class=\"news-meta\">" ++
    a.meta ++
    "</span>\n                </div>\n                <p class=\"news-summary\">" ++
    a.summary ++
    "</p>\n            </article>\n            "

/-- `generate_product_list` (src/build.py:469-481): `enumerate(products, 1)`. -/
def productListAux (i : Nat) : List Product → String
  | [] => ""
  | p :: ps => productEntry i p ++ productListAux (i + 1) ps

/-- `generate_product_list` entry point. -/
def generate_product_list (products : List Product) : String :=
  productListAux 1 products

/-- `generate_github_list` (src/build.py:484-510). -/
def generate_github_list (repos : List Repo) : String :=
  repos.foldl (fun html r => html ++ repoEntry r) ""

/-- `generate_ai_models_list` (src/build.py:513-526): `models[:8]`. -/
def generate_ai_models_list (models : List AIModel) : String :=
  (models.take 8).foldl (fun html m => html ++ modelEntry m) ""

/-- `generate_ai_tools_list` (src/build.py:529-541): `tools[:16]`. -/
def generate_ai_tools_list (tools : List AITool) : String :=
  (tools.take 16).foldl (fun html t => html ++ toolEntry t) ""

/-- `generate_ai_trends_list` (src/build.py:544-556). -/
def generate_ai_trends_list (trends : List AITrend) : String :=
  trends.foldl (fun html t => html ++ trendEntry t) ""

/-- `generate_ai_news_list` (src/build.py:565-576): `news[:15]`. -/
def generate_ai_news_list (news : List NewsItem) : String :=
  (news.take 15).foldl (fun html n => html ++ newsEntry n) ""

/-- `generate_articles` (src/build.py:597-611); articles with a falsy
(empty) title are skipped; the `stars` parameter is unused in the source as
well. -/
def generate_articles (articles : List Article) (stars : Nat) : String :=
  articles.foldl (fun html a => if a.title = "" then html else html ++ articleEntry a) ""

/-- Lexicographic code-point comparison on character lists: Python's
string `<=`. -/
def charListLe : List Char → List Char → Bool
  | [], _ => true
  | _ :: _, [] => false
  | a :: as, b :: bs =>
      if a.toNat < b.toNat then true
      else if b.toNat < a.toNat then false
      else charListLe as bs

/-- Python string `s1 <= s2`. -/
def strLeB (a b : String) : Bool :=
  charListLe a.toList b.toList

/-- The descending order used by `sorted(all_dates, reverse=True)`. -/
def descRel (a b : String) : Prop :=
  strLeB b a = true

instance : DecidableRel descRel := fun a b =>
  inferInstanceAs (Decidable (strLeB b a = true))

/-- `sorted(all_dates, reverse=True)` (src/build.py:582): a stable
descending sort; on duplicate-free inputs it agrees with Python. -/
def sortedDesc (l : List String) : List String :=
  l.insertionSort descRel

/-- One link of the date navigation (src/build.py:583-584); `active` is
set exactly when `d == data.get(\x27date\x27)`. -/
def dateLink (curDate : Option String) (d : String) : String :=
  "<a href=\"" ++ d ++ ".html\" class=\"date-link " ++
    (if some d = curDate then "active" else "") ++ "\">" ++ d ++ "</a>"

/-- The date-navigation strip (src/build.py:580-584). -/
def genDateNav (all_dates : List String) (curDate : Option String) : String :=
  (sortedDesc all_dates).foldl (fun nav d => nav ++ dateLink curDate d) ""

/-- `summary_html` (src/build.py:587-594). -/
def summaryHtml (items : List SummaryItem) : String :=
  items.foldl (fun html it => html ++ summaryItemHtml it) ""

/-- The five-star block (src/build.py:618-628); empty when the inner html is empty. -/
def five_star_section (html : String) : String :=
  if html = "" then "" else
    "\n        <section class=\"news-section\">\n            <div class=\"section-header\">\n                <span class=\"section-name\">五星推荐</span>\n                <span class=\"star-rating\">" ++
    star_icons 5 ++
    "</span>\n            </div>\n            " ++
    html ++
    "\n        </section>\n        "

/-- The four-star block (src/build.py:630-640). -/
def four_star_section (html : String) : String :=
  if html = "" then "" else
    "\n        <section class=\"news-section\">\n            <div class=\"section-header\">\n                <span class=\"section-name\">四星推荐</span>\n                <span class=\"star-rating\">" ++
    star_icons 4 ++
    "</span>\n            </div>\n            " ++
    html ++
    "\n        </section>\n        "

/-- The worth-viewing block (src/build.py:642-652). -/
def worth_section (html : String) : String :=
  if html = "" then "" else
    "\n        <section class=\"news-section\">\n            <div class=\"section-header\">\n                <span class=\"section-name\">值得一看</span>\n                <span class=\"star-rating\">" ++
    star_icons 3 ++
    "</span>\n            </div>\n            " ++
    html ++
    "\n        </section>\n        "

/-- The Product Hunt block (src/build.py:654-665). -/
def producthunt_section (html : String) : String :=
  if html = "" then "" else
    "\n        <section class=\"news-section trending-section\">\n            <div class=\"trending-header\">\n                <span class=\"trending-name\">Product Hunt Top 30</span>\n                <span class=\"trending-badge ph\">Product Hunt</span>\n            </div>\n            " ++
    html ++
    "\n        </section>\n        "

/-- The GitHub trending block (src/build.py:667-678). -/
def github_section (html : String) : String :=
  if html = "" then "" else
    "\n        <section class=\"news-section trending-section\">\n            <div class=\"trending-header\">\n                <span class=\"trending-name\">GitHub Trending</span>\n                <span class=\"trending-badge gh\"><a href=\"https://github.com/trending\" target=\"_blank\" style=\"color:white;text-decoration:none;\">GitHub</a></span>\n            </div>\n            " ++
    html ++
    "\n        </section>\n        "

/-- The AI-models block (src/build.py:680-691). -/
def ai_models_section (html : String) : String :=
  if html = "" then "" else
    "\n        <section class=\"news-section trending-section ai-section\">\n            <div class=\"trending-header\">\n                <span class=\"trending-name\">AI 模型排行</span>\n                <span class=\"trending-badge ai\">LLM</span>\n            </div>\n            " ++
    html ++
    "\n        </section>\n        "

/-- The AI-tools block (src/build.py:693-704). -/
def ai_tools_section (html : String) : String :=
  if html = "" then "" else
    "\n        <section class=\"news-section trending-section ai-section\">\n            <div class=\"trending-header\">\n                <span class=\"trending-name\">AI 工具推荐</span>\n                <span class=\"trending-badge ai\">Tools</span>\n            </div>\n            " ++
    html ++
    "\n        </section>\n        "

/-- The AI-trends block (src/build.py:706-717). -/
def ai_trends_section (html : String) : String :=
  if html = "" then "" else
    "\n        <section class=\"news-section trending-section trends-section\">\n            <div class=\"trending-header\">\n                <span class=\"trending-name\">AI 趋势洞察</span>\n                <span class=\"trending-badge trend\">趋势</span>\n            </div>\n            " ++
    html ++
    "\n        </section>\n        "

/-- The AI-news block (src/build.py:719-730). -/
def ai_news_section (html : String) : String :=
  if html = "" then "" else
    "\n        <section class=\"news-section trending-section news-section\">\n            <div class=\"trending-header\">\n                <span class=\"trending-name\">最新 AI 资讯</span>\n                <span class=\"trending-badge news\">量子位</span>\n            </div>\n            " ++
    html ++
    "\n        </section>\n        "

/-- The outer page template (src/build.py:732-1099), a function of the
interpolated pieces. -/
def htmlPage (dateStr date_nav summaryBlock five_star_section
    four_star_section worth_section producthunt_section github_section
    ai_models_section ai_tools_section ai_trends_section
    ai_news_section : String) : String :=
    "<!DOCTYPE html>\n<html lang=\"zh-CN\">\n<head>\n    <meta charset=\"UTF-8\">\n    <meta name=\"viewport\" content=\"width=device-width, initial-scale=1.0\">\n    <title>Daily News - " ++
    dateStr ++
    "</title>\n    <link rel=\"preconnect\" href=\"https://fonts.googleapis.com\">\n    <link rel=\"preconnect\" href=\"https://fonts.gstatic.com\" crossorigin>\n    <link href=\"https://fonts.googleapis.com/css2?family=JetBrains+Mono:wght@400;600;700&family=Inter:wght@400;500;600&display=swap\" rel=\"stylesheet\">\n    <style>\n        :root \x7b\n            --bg-primary: #fafafa;\n            --bg-secondary: #f5f5f5;\n            --bg-terminal: #1a1a1a;\n            --text-primary: #1a1a1a;\n            --text-secondary: #666666;\n            --text-muted: #999999;\n            --accent: #2563eb;\n            --accent-light: #3b82f6;\n            --border: #e5e5e5;\n            --border-light: #f0f0f0;\n            --star: #f59e0b;\n            --code-bg: #f4f4f4;\n        \x7d\n\n        * \x7b\n            margin: 0;\n            padding: 0;\n            box-sizing: border-box;\n        \x7d\n\n        body \x7b\n            font-family: \x27Inter\x27, -apple-system, BlinkMacSystemFont, sans-serif;\n            background: var(--bg-primary);\n            color: var(--text-primary);\n            line-height: 1.6;\n        \x7d\n\n        /* Terminal Header */\n        .terminal-header \x7b\n            background: var(--bg-terminal);\n            color: #fff;\n            padding: 1rem 2rem;\n            font-family: \x27JetBrains Mono\x27, monospace;\n        \x7d\n\n        .terminal-line \x7b\n            display: flex;\n            align-items: center;\n            gap: 0.5rem;\n            margin-bottom: 0.25rem;\n        \x7d\n\n        .terminal-prompt \x7b\n            color: #10b981;\n        \x7d\n\n        .terminal-cursor \x7b\n            display: inline-block;\n            width: 8px;\n            height: 1.2em;\n            background: #10b981;\n            animation: blink 1s infinite;\n            vertical-align: text-bottom;\n        \x7d\n\n        @keyframes blink \x7b\n            0%, 50% \x7b opacity: 1; \x7d\n            51%, 100% \x7b opacity: 0; \x7d\n        \x7d\n\n        /* Navigation */\n        .nav-container \x7b\n            background: var(--bg-secondary);\n            border-bottom: 1px solid var(--border);\n            padding: 1rem 2rem;\n            overflow-x: auto;\n        \x7d\n\n        .date-nav \x7b\n            display: flex;\n            gap: 0.5rem;\n            font-family: \x27JetBrains Mono\x27, monospace;\n            font-size: 0.875rem;\n        \x7d\n\n        .date-link \x7b\n            padding: 0.5rem 1rem;\n            color: var(--text-secondary);\n            text-decoration: none;\n            border-radius: 4px;\n            transition: all 0.2s;\n            white-space: nowrap;\n        \x7d\n\n        .date-link:hover \x7b\n            background: var(--bg-primary);\n            color: var(--accent);\n        \x7d\n\n        .date-link.active \x7b\n            background: var(--accent);\n            color: white;\n        \x7d\n\n        /* Main Content */\n        .container \x7b\n            max-width: 900px;\n            margin: 0 auto;\n            padding: 3rem 2rem;\n        \x7d\n\n        .page-title \x7b\n            font-size: 2.5rem;\n            font-weight: 700;\n            margin-bottom: 0.5rem;\n            font-family: \x27JetBrains Mono\x27, monospace;\n        \x7d\n\n        .page-subtitle \x7b\n            color: var(--text-muted);\n            font-family: \x27JetBrains Mono\x27, monospace;\n            margin-bottom: 3rem;\n        \x7d\n\n        /* Summary Section */\n        .summary-section \x7b\n            background: var(--bg-secondary);\n            border-radius: 12px;\n            padding: 1.5rem;\n            margin-bottom: 3rem;\n        \x7d\n\n        .section-title \x7b\n            font-size: 0.875rem;\n            font-weight: 600;\n            color: var(--text-muted);\n            text-transform: uppercase;\n            letter-spacing: 0.05em;\n            margin-bottom: 1rem;\n            font-family: \x27JetBrains Mono\x27, monospace;\n        \x7d\n\n        .summary-item \x7b\n            padding: 0.75rem 0;\n            border-bottom: 1px solid var(--border);\n        \x7d\n\n        .summary-item:last-child \x7b\n            border-bottom: none;\n        \x7d\n\n        .summary-topic \x7b\n            font-weight: 600;\n            color: var(--accent);\n            margin-right: 0.5rem;\n        \x7d\n\n        .summary-content \x7b\n            color: var(--text-secondary);\n        \x7d\n\n        /* News Sections */\n        .news-section \x7b\n            margin-bottom: 3rem;\n        \x7d\n\n        .section-header \x7b\n            display: flex;\n            align-items: center;\n            gap: 0.75rem;\n            margin-bottom: 1.5rem;\n            padding-bottom: 0.75rem;\n            border-bottom: 2px solid var(--border);\n        \x7d\n\n        .section-name \x7b\n            font-size: 1.25rem;\n            font-weight: 600;\n        \x7d\n\n        .star-rating \x7b\n            color: var(--star);\n            font-size: 0.875rem;\n        \x7d\n\n        .news-item \x7b\n            padding: 1.5rem;\n            margin-bottom: 1rem;\n            background: white;\n            border: 1px solid var(--border-light);\n            border-radius: 8px;\n            transition: all 0.2s;\n        \x7d\n\n        .news-item:hover \x7b\n            border-color: var(--accent);\n            box-shadow: 0 4px 12px rgba(37, 99, 235, 0.08);\n        \x7d\n\n        .news-header \x7b\n            display: flex;\n            justify-content: space-between;\n            align-items: flex-start;\n            gap: 1rem;\n            margin-bottom: 0.75rem;\n        \x7d\n\n        .news-title \x7b\n            font-size: 1.125rem;\n            font-weight: 600;\n            color: var(--text-primary);\n            text-decoration: none;\n            line-height: 1.4;\n        \x7d\n\n        .news-title:hover \x7b\n            color: var(--accent);\n        \x7d\n\n        .news-meta \x7b\n            font-family: \x27JetBrains Mono\x27, monospace;\n            font-size: 0.75rem;\n            color: var(--text-muted);\n            background: var(--code-bg);\n            padding: 0.25rem 0.5rem;\n            border-radius: 4px;\n            white-space: nowrap;\n        \x7d\n\n        .news-summary \x7b\n            color: var(--text-secondary);\n            line-height: 1.7;\n        \x7d\n\n        /* Product Hunt & GitHub Trending Sections */\n        .trending-section \x7b\n            margin-top: 3rem;\n        \x7d\n\n        .trending-header \x7b\n            display: flex;\n            align-items: center;\n            gap: 0.75rem;\n            margin-bottom: 1.5rem;\n            padding-bottom: 0.75rem;\n            border-bottom: 2px solid var(--border);\n        \x7d\n\n        .trending-name \x7b\n            font-size: 1.25rem;\n            font-weight: 600;\n        \x7d\n\n        .trending-badge \x7b\n            font-family: \x27JetBrains Mono\x27, monospace;\n            font-size: 0.75rem;\n            padding: 0.25rem 0.5rem;\n            border-radius: 4px;\n            background: var(--code-bg);\n            color: var(--text-muted);\n        \x7d\n\n        .trending-badge.ph \x7b\n            background: #DA552F;\n            color: white;\n        \x7d\n\n        .trending-badge.gh \x7b\n            background: #24292e;\n            color: white;\n        \x7d\n\n        .rank-num \x7b\n            font-family: \x27JetBrains Mono\x27, monospace;\n            font-size: 0.875rem;\n            color: var(--text-muted);\n            margin-right: 0.5rem;\n            min-width: 2rem;\n            display: inline-block;\n        \x7d\n\n        .lang-dot \x7b\n            display: inline-block;\n            width: 10px;\n            height: 10px;\n            border-radius: 50%;\n            margin-right: 0.25rem;\n            vertical-align: middle;\n        \x7d\n\n        /* Footer */\n        .footer \x7b\n            margin-top: 4rem;\n            padding-top: 2rem;\n            border-top: 1px solid var(--border);\n            text-align: center;\n            color: var(--text-muted);\n            font-family: \x27JetBrains Mono\x27, monospace;\n            font-size: 0.875rem;\n        \x7d\n\n        /* Responsive */\n        @media (max-width: 768px) \x7b\n            .container \x7b\n                padding: 1.5rem;\n            \x7d\n\n            .page-title \x7b\n                font-size: 1.75rem;\n            \x7d\n\n            .news-header \x7b\n                flex-direction: column;\n                gap: 0.5rem;\n            \x7d\n\n            .nav-container \x7b\n                padding: 0.75rem 1rem;\n            \x7d\n        \x7d\n    </style>\n</head>\n<body>\n    <header class=\"terminal-header\">\n        <div class=\"terminal-line\">\n            <span class=\"terminal-prompt\">$</span>\n            <span>daily-news --date " ++
    dateStr ++
    "</span>\n            <span class=\"terminal-cursor\"></span>\n        </div>\n        <div class=\"terminal-line\">\n            <span class=\"terminal-prompt\">&gt;</span>\n            <span>Generating report... Done.</span>\n        </div>\n    </header>\n\n    <nav class=\"nav-container\">\n        <div class=\"date-nav\">\n            " ++
    date_nav ++
    "\n        </div>\n    </nav>\n\n    <main class=\"container\">\n        <h1 class=\"page-title\">Daily News</h1>\n        <p class=\"page-subtitle\">// " ++
    dateStr ++
    "</p>\n\n        <section class=\"summary-section\">\n            <div class=\"section-title\">$ cat summary.md</div>\n            " ++
    summaryBlock ++
    "\n        </section>\n\n        " ++
    five_star_section ++
    "\n        " ++
    four_star_section ++
    "\n        " ++
    worth_section ++
    "\n\n        " ++
    producthunt_section ++
    "\n        " ++
    github_section ++
    "\n        " ++
    ai_models_section ++
    "\n        " ++
    ai_tools_section ++
    "\n        " ++
    ai_trends_section ++
    "\n        " ++
    ai_news_section ++
    "\n\n        <footer class=\"footer\">\n            <p>Generated by Daily News Skill | Cloudflare Pages</p>\n        </footer>\n    </main>\n</body>\n</html>"

/-- `generate_html` (src/build.py:445-1101); the `None` defaults of the
Python signature correspond to passing `[]`. -/
def generate_html (data : Report) (all_dates : List String)
    (producthunt : List Product) (github_trending : List Repo)
    (ai_models : List AIModel) (ai_tools : List AITool)
    (ai_trends : List AITrend) (ai_news : List NewsItem) : String :=
  let producthunt_html := generate_product_list producthunt
  let github_trending_html := generate_github_list github_trending
  let ai_models_html := generate_ai_models_list ai_models
  let ai_tools_html := generate_ai_tools_list ai_tools
  let ai_trends_html := generate_ai_trends_list ai_trends
  let ai_news_html := generate_ai_news_list ai_news
  let date_nav := genDateNav all_dates data.date
  let summary_html := summaryHtml data.summary
  let five_star_html := generate_articles data.five_star 5
  let four_star_html := generate_articles data.four_star 4
  let worth_html := generate_articles data.worth_viewing 3
  htmlPage (data.date.getD "") date_nav
    (if summary_html = "" then "<p class=\"text-muted\">暂无导读</p>" else summary_html)
    (five_star_section five_star_html)
    (four_star_section four_star_html)
    (worth_section worth_html)
    (producthunt_section producthunt_html)
    (github_section github_trending_html)
    (ai_models_section ai_models_html)
    (ai_tools_section ai_tools_html)
    (ai_trends_section ai_trends_html)
    (ai_news_section ai_news_html)

/-- The loop of `parse_markdown` applied to an explicit line list (the
source computes the list as `md_content.split('\n')`). -/
def parse_lines (lines : List String) : Option Report :=
  (processLines initState lines).map finalizeState

/-- The end-to-end Markdown → HTML pipeline of `build()`
(src/build.py:1148-1151) for one file, without the file-name date
override: `parse_markdown` then `generate_html`; `none` when the parser
raises. -/
def pipeline (md : String) (all_dates : List String)
    (producthunt : List Product) (github_trending : List Repo)
    (ai_models : List AIModel) (ai_tools : List AITool)
    (ai_trends : List AITrend) (ai_news : List NewsItem) : Option String :=
  (parse_markdown md).map fun data =>
    generate_html data all_dates producthunt github_trending ai_models
      ai_tools ai_trends ai_news

/-! ## Line classes and derived notions used by the verification -/

/-- The four literal section headers. -/
def headerStrings : List String :=
  ["## 导读", "## 五星推荐", "## 四星推荐", "## 值得一看"]

/-- The three rating-tier headers. -/
def tierHeaderStrings : List String :=
  ["## 五星推荐", "## 四星推荐", "## 值得一看"]

/-- The exact situation in which one loop iteration of `parse_markdown`
raises (`TypeError` on a `None` subscript): inside a rating-tier section,
with no article accumulator, on a line that is neither blank, nor a
title/date line, nor a section header, nor a bold-link opener, but is
either a backtick-meta line or a summary-continuation line. -/
def crashCond (st : ParseState) (raw : String) : Prop :=
  (∃ sec, st.current_section = some sec ∧ sec ≠ .summary) ∧
  st.current_item = none ∧
  trimStr raw ≠ "" ∧
  startsWithStr "# Daily News" (trimStr raw) = false ∧
  trimStr raw ∉ headerStrings ∧
  startsWithStr "**[" (trimStr raw) = false ∧
  ((startsWithStr "\x60" (trimStr raw) = true ∧
      (trimStr raw).toList.contains '·' = true) ∨
    (startsWithStr "---" (trimStr raw) = false ∧
      startsWithStr "*Generated" (trimStr raw) = false))

/-- The effect of one non-opener article line on the accumulator (the
`elif` chain at src/build.py:428-437, restricted to the branches that leave
everything but `current_item` unchanged). -/
def bodyStep (a : Article) (raw : String) : Article :=
  let line := trimStr raw
  if line = "" then a
  else if startsWithStr "\x60" line ∧ line.toList.contains '·' then
    { a with meta := stripAll (Char.ofNat 96) line }
  else if (¬ startsWithStr "---" line) ∧ (¬ startsWithStr "*Generated" line) then
    { a with summary := if a.summary = "" then line else a.summary ++ " " ++ line }
  else a

/-- The summary-continuation accumulation of src/build.py:434-437: the
first line sets the field, later lines are appended with a single space. -/
def joinStep (s l : String) : String :=
  if s = "" then l else s ++ " " ++ l

/-- A line that, inside a rating-tier section, is processed without opening
a new article, changing the section, or touching the date: blank lines,
meta lines, horizontal rules, footer markers and continuation text. -/
def IsBodyLine (raw : String) : Prop :=
  startsWithStr "# Daily News" (trimStr raw) = false ∧
  trimStr raw ∉ headerStrings ∧
  startsWithStr "**[" (trimStr raw) = false

/-- A summary-continuation line: a body line that reaches the final branch
of the `elif` chain (src/build.py:432-437). -/
def IsContinuationLine (raw : String) : Prop :=
  IsBodyLine raw ∧
  trimStr raw ≠ "" ∧
  (startsWithStr "\x60" (trimStr raw) = false ∨
    (trimStr raw).toList.contains '·' = false) ∧
  startsWithStr "---" (trimStr raw) = false ∧
  startsWithStr "*Generated" (trimStr raw) = false

/-- A bold-link opener line (after stripping). -/
def IsOpenerLine (raw : String) : Prop :=
  startsWithStr "**[" (trimStr raw) = true

/-- The fresh accumulator created by an opener line
(src/build.py:416-426). -/
def openedArticle (raw : String) : Article :=
  match matchTitleUrl (trimStr raw) with
  | some tu => ⟨tu.1, tu.2, "", ""⟩
  | none => ⟨"", "", "", ""⟩

/-- One article entry of a rating-tier section of the input: its opener
line followed by its meta/continuation/decoration lines. -/
structure Chunk where
  opener : String
  rest : List String

/-- The input lines of a chunk. -/
def renderChunk (c : Chunk) : List String :=
  c.opener :: c.rest

/-- A well-formed chunk. -/
def WFChunk (c : Chunk) : Prop :=
  IsOpenerLine c.opener ∧ ∀ l ∈ c.rest, IsBodyLine l

/-- The Article a chunk parses to. -/
def articleOf (c : Chunk) : Article :=
  c.rest.foldl bodyStep (openedArticle c.opener)

/-- A report text whose section headers appear in canonical order: lines
before any header, the summary section, then the three rating-tier
sections, each holding a list of article chunks. -/
def canonicalLines (pre sums : List String) (b1 b2 b3 : List Chunk) :
    List String :=
  pre ++ ["## 导读"] ++ sums ++ ["## 五星推荐"] ++ (b1.map renderChunk).flatten ++
    ["## 四星推荐"] ++ (b2.map renderChunk).flatten ++ ["## 值得一看"] ++
    (b3.map renderChunk).flatten

/-- `sections[sec]` extended by a list of articles. -/
def ParseState.appendArts (st : ParseState) (sec : SecName) (l : List Article) :
    ParseState :=
  match sec with
  | .summary => st
  | .five_star => { st with five_star := st.five_star ++ l }
  | .four_star => { st with four_star := st.four_star ++ l }
  | .worth_viewing => { st with worth_viewing := st.worth_viewing ++ l }

/-- The flush performed by an opener line (src/build.py:418-419): the
pending accumulator, if any, is appended to the active tier's list. -/
def ParseState.flushItem (st : ParseState) (sec : SecName) : ParseState :=
  match st.current_item with
  | some it => st.appendArt sec it
  | none => st

/-- A loop step that left the rating-tier lists, the active section and the
accumulator untouched. -/
def PreservesTier (st st' : ParseState) : Prop :=
  st'.five_star = st.five_star ∧ st'.four_star = st.four_star ∧
  st'.worth_viewing = st.worth_viewing ∧
  st'.current_section = st.current_section ∧
  st'.current_item = st.current_item

instance : DecidablePred IsBodyLine := fun l => by
  unfold IsBodyLine
  infer_instance

instance : DecidablePred IsContinuationLine := fun l => by
  unfold IsContinuationLine
  infer_instance

instance : DecidablePred IsOpenerLine := fun l => by
  unfold IsOpenerLine
  infer_instance

instance (c : Chunk) : Decidable (WFChunk c) := by
  unfold WFChunk
  infer_instance

/-! ## Helper lemmas about the parsing loop -/

theorem parse_markdown_eq_parse_lines (md : String) :
    parse_markdown md = parse_lines (splitLines md) := rfl

theorem processLines_append (xs ys : List String) (st : ParseState) :
    processLines st (xs ++ ys) =
      (processLines st xs).bind fun st' => processLines st' ys := by
  induction xs generalizing st with
  | nil => rfl
  | cons l ls ih =>
      simp only [List.cons_append, processLines]
      cases parseLine st l with
      | none => rfl
      | some st' => exact ih st'

theorem parseLine_blank (st : ParseState) (raw : String) (h : trimStr raw = "") :
    parseLine st raw = some st := by
  simp [parseLine, h]

theorem parseLine_summaryHeader (st : ParseState) :
    parseLine st "## 导读" = some { st with current_section := some .summary } := rfl

theorem parseLine_fiveHeader (st : ParseState) :
    parseLine st "## 五星推荐" = some (enterTier st .five_star) := rfl

theorem parseLine_fourHeader (st : ParseState) :
    parseLine st "## 四星推荐" = some (enterTier st .four_star) := rfl

theorem parseLine_worthHeader (st : ParseState) :
    parseLine st "## 值得一看" = some (enterTier st .worth_viewing) := rfl

theorem enterTier_item_none (st : ParseState) (t : SecName)
    (h : st.current_item = none) :
    enterTier st t = { st with current_section := some t, current_item := none } := by
  unfold enterTier
  rw [h]

theorem enterTier_five (st : ParseState) (it : Article)
    (h : st.current_item = some it) :
    enterTier st .five_star =
      { st with current_section := some .five_star, five_star := st.five_star ++ [it], current_item := none } := by
  unfold enterTier
  rw [h]
  rfl

theorem enterTier_four (st : ParseState) (it : Article)
    (h : st.current_item = some it) :
    enterTier st .four_star =
      { st with current_section := some .four_star, four_star := st.four_star ++ [it], current_item := none } := by
  unfold enterTier
  rw [h]
  rfl

theorem enterTier_worth (st : ParseState) (it : Article)
    (h : st.current_item = some it) :
    enterTier st .worth_viewing =
      { st with current_section := some .worth_viewing, worth_viewing := st.worth_viewing ++ [it], current_item := none } := by
  unfold enterTier
  rw [h]
  rfl

theorem tierLine_none_iff (st : ParseState) (sec : SecName) (line : String) :
    tierLine st sec line = none ↔
      st.current_item = none ∧
        startsWithStr "**[" line = false ∧
        ((startsWithStr "\x60" line = true ∧ line.toList.contains '·' = true) ∨
          (startsWithStr "---" line = false ∧
            startsWithStr "*Generated" line = false)) := by
  unfold tierLine
  by_cases hone : startsWithStr "**[" line = true
  · simp [hone]
  rw [Bool.not_eq_true] at hone
  by_cases htwo : startsWithStr "\x60" line = true ∧ line.toList.contains '·' = true
  · cases hit : st.current_item with
    | none =>
        refine iff_of_true ?_ ⟨rfl, hone, Or.inl htwo⟩
        have hmem : '·' ∈ line.data := by simpa using htwo.2
        simp [hone, htwo.1, hmem, hit]
    | some it =>
        refine iff_of_false ?_ (by simp [hit])
        (repeat' split) <;> simp_all
  · by_cases hthree : startsWithStr "---" line = false ∧
        startsWithStr "*Generated" line = false
    · cases hit : st.current_item with
      | none =>
          refine iff_of_true ?_ ⟨rfl, hone, Or.inr hthree⟩
          simp [hone, htwo, hthree, hit]
      | some it =>
          refine iff_of_false ?_ (by simp [hit])
          (repeat' split) <;> simp_all
    · cases hit : st.current_item with
      | none =>
          refine iff_of_false ?_ ?_
          · simp [hone, htwo, hthree, hit]
            intro hb hmem
            exact htwo ⟨hb, by simpa using hmem⟩
          · rintro ⟨-, -, h | h⟩
            · exact htwo h
            · exact hthree h
      | some it =>
          refine iff_of_false ?_ ?_
          · (repeat' split) <;> simp_all
          · rintro ⟨-, -, h | h⟩
            · exact htwo h
            · exact hthree h

theorem parseLine_none_iff (st : ParseState) (raw : String) :
    parseLine st raw = none ↔ crashCond st raw := by
  simp only [parseLine]
  by_cases h1 : trimStr raw = ""
  · simp [crashCond, h1]
  by_cases h2 : startsWithStr "# Daily News" (trimStr raw) = true
  · simp [crashCond, h1, h2]
  by_cases h3 : trimStr raw = "## 导读"
  · refine iff_of_false ?_ (by simp [crashCond, headerStrings, h3])
    simp only [h3, eq_self_iff_true, if_true]
    (repeat' split) <;> simp
  by_cases h4 : trimStr raw = "## 五星推荐"
  · refine iff_of_false ?_ (by simp [crashCond, headerStrings, h4])
    simp only [h4, eq_self_iff_true, if_true]
    (repeat' split) <;> simp
  by_cases h5 : trimStr raw = "## 四星推荐"
  · refine iff_of_false ?_ (by simp [crashCond, headerStrings, h5])
    simp only [h5, eq_self_iff_true, if_true]
    (repeat' split) <;> simp
  by_cases h6 : trimStr raw = "## 值得一看"
  · refine iff_of_false ?_ (by simp [crashCond, headerStrings, h6])
    simp only [h6, eq_self_iff_true, if_true]
    (repeat' split) <;> simp
  cases hsec : st.current_section with
  | none => simp [crashCond, headerStrings, h1, h2, h3, h4, h5, h6, hsec]
  | some sec =>
      cases sec with
      | summary =>
          refine iff_of_false ?_ ?_
          · simp only [h1, h2, h3, h4, h5, h6, hsec, if_neg, if_false]
            (repeat' split) <;> simp_all
          · rintro ⟨⟨s, hs, hne⟩, -⟩
            rw [hsec] at hs
            cases hs
            exact absurd rfl hne
      | five_star =>
          simp only [h1, h2, h3, h4, h5, h6, hsec, if_neg, if_false,
            Bool.false_eq_true]
          rw [tierLine_none_iff]
          simp [crashCond, headerStrings, h1, h2, h3, h4, h5, h6, hsec,
            Bool.of_not_eq_true h2, and_assoc]
      | four_star =>
          simp only [h1, h2, h3, h4, h5, h6, hsec, if_neg, if_false,
            Bool.false_eq_true]
          rw [tierLine_none_iff]
          simp [crashCond, headerStrings, h1, h2, h3, h4, h5, h6, hsec,
            Bool.of_not_eq_true h2, and_assoc]
      | worth_viewing =>
          simp only [h1, h2, h3, h4, h5, h6, hsec, if_neg, if_false,
            Bool.false_eq_true]
          rw [tierLine_none_iff]
          simp [crashCond, headerStrings, h1, h2, h3, h4, h5, h6, hsec,
            Bool.of_not_eq_true h2, and_assoc]


theorem processLines_none_iff (lines : List String) (st : ParseState) :
    processLines st lines = none ↔
      ∃ pre raw post st', lines = pre ++ raw :: post ∧
        processLines st pre = some st' ∧ parseLine st' raw = none := by
  induction lines generalizing st with
  | nil =>
      simp only [processLines]
      constructor
      · intro h; cases h
      · rintro ⟨pre, raw, post, st', h1, -, -⟩
        exact absurd h1 (by simp)
  | cons l ls ih =>
      constructor
      · intro h
        simp only [processLines] at h
        cases hp : parseLine st l with
        | none => exact ⟨[], l, ls, st, rfl, rfl, hp⟩
        | some st1 =>
            rw [hp] at h
            obtain ⟨pre, raw, post, st', h1, h2, h3⟩ := (ih st1).1 h
            refine ⟨l :: pre, raw, post, st', by simp [h1], ?_, h3⟩
            simpa [processLines, hp] using h2
      · rintro ⟨pre, raw, post, st', h1, h2, h3⟩
        cases pre with
        | nil =>
            obtain ⟨rfl, rfl⟩ := by simpa using h1
            obtain rfl : st = st' := by simpa [processLines] using h2
            simp [processLines, h3]
        | cons p pre' =>
            obtain ⟨rfl, rfl⟩ : l = p ∧ ls = pre' ++ raw :: post := by
              simpa using h1
            simp only [processLines] at h2 ⊢
            cases hp : parseLine st l with
            | none => rfl
            | some st1 =>
                rw [hp] at h2
                exact (ih st1).2 ⟨pre', raw, post, st', rfl, h2, h3⟩

theorem isPrefixOf_cons_shape {c : Char} {p l : List Char}
    (h : List.isPrefixOf (c :: p) l = true) :
    ∃ t, l = c :: t ∧ List.isPrefixOf p t = true := by
  cases l with
  | nil => simp [List.isPrefixOf] at h
  | cons d t =>
      simp only [List.isPrefixOf, Bool.and_eq_true, beq_iff_eq] at h
      exact ⟨t, by simp [h.1], h.2⟩

theorem opener_shape (s : String) (h : startsWithStr "**[" s = true) :
    ∃ t, s.toList = '*' :: '*' :: '[' :: t := by
  replace h : List.isPrefixOf ['*', '*', '['] s.toList = true := h
  obtain ⟨t1, ht1, h⟩ := isPrefixOf_cons_shape h
  obtain ⟨t2, ht2, h⟩ := isPrefixOf_cons_shape h
  obtain ⟨t3, ht3, -⟩ := isPrefixOf_cons_shape h
  exact ⟨t3, by rw [ht1, ht2, ht3]⟩

theorem opener_line_facts (s : String) (h : startsWithStr "**[" s = true) :
    s ≠ "" ∧ startsWithStr "# Daily News" s = false ∧
      s ≠ "## 导读" ∧ s ≠ "## 五星推荐" ∧ s ≠ "## 四星推荐" ∧
      s ≠ "## 值得一看" := by
  obtain ⟨t, ht⟩ := opener_shape s h
  refine ⟨?_, ?_, ?_, ?_, ?_, ?_⟩
  · intro e
    rw [e] at ht
    simp at ht
  · show List.isPrefixOf (String.toList "# Daily News") s.toList = false
    rw [ht]
    rfl
  all_goals
    intro e
    have hdata := congrArg String.toList e
    rw [ht] at hdata
    injection hdata with h1 _
    exact absurd h1 (by decide)

theorem tierLine_of_item (st : ParseState) (sec : SecName) (raw : String)
    (a : Article) (hitem : st.current_item = some a)
    (ho : startsWithStr "**[" (trimStr raw) = false) (hb : trimStr raw ≠ "") :
    tierLine st sec (trimStr raw) =
      some { st with current_item := some (bodyStep a raw) } := by
  unfold tierLine bodyStep
  simp only [ho, Bool.false_eq_true, if_false]
  by_cases hm : startsWithStr "\x60" (trimStr raw) = true ∧
      (trimStr raw).toList.contains '·' = true
  · have hmem : '·' ∈ (trimStr raw).data := by simpa using hm.2
    simp [hb, hm.1, hmem, hitem]
  · have hm' : ¬(startsWithStr "\x60" (trimStr raw) = true ∧
        '·' ∈ (trimStr raw).data) := by simpa using hm
    by_cases hc : (¬ startsWithStr "---" (trimStr raw) = true) ∧
        (¬ startsWithStr "*Generated" (trimStr raw) = true)
    · simp [hb, hm', hc, hitem]
    · have hc' : ¬(startsWithStr "---" (trimStr raw) = false ∧
          startsWithStr "*Generated" (trimStr raw) = false) := by
        simpa [Bool.not_eq_true] using hc
      simp only [hb, hm, hc', if_false, if_neg, Bool.not_eq_true]
      rw [← hitem]

theorem parseLine_body (st : ParseState) (sec : SecName) (a : Article)
    (raw : String) (hsec : st.current_section = some sec)
    (hs : sec ≠ .summary) (hitem : st.current_item = some a)
    (hl : IsBodyLine raw) :
    parseLine st raw = some { st with current_item := some (bodyStep a raw) } := by
  obtain ⟨hd, hh, ho⟩ := hl
  simp only [headerStrings, List.mem_cons, List.not_mem_nil, or_false,
    not_or] at hh
  obtain ⟨hh1, hh2, hh3, hh4⟩ := hh
  by_cases hb : trimStr raw = ""
  · rw [parseLine_blank st raw hb]
    have hstep : bodyStep a raw = a := by simp [bodyStep, hb]
    rw [hstep, ← hitem]
  · cases sec with
    | summary => exact absurd rfl hs
    | five_star =>
        simp only [parseLine, hb, hd, hh1, hh2, hh3, hh4, Bool.false_eq_true,
          if_false, hsec]
        rw [tierLine_of_item st _ raw a hitem ho hb]
        simp [hsec]
    | four_star =>
        simp only [parseLine, hb, hd, hh1, hh2, hh3, hh4, Bool.false_eq_true,
          if_false, hsec]
        rw [tierLine_of_item st _ raw a hitem ho hb]
        simp [hsec]
    | worth_viewing =>
        simp only [parseLine, hb, hd, hh1, hh2, hh3, hh4, Bool.false_eq_true,
          if_false, hsec]
        rw [tierLine_of_item st _ raw a hitem ho hb]
        simp [hsec]

theorem processLines_body (L : List String) (st : ParseState) (sec : SecName)
    (a : Article) (hsec : st.current_section = some sec) (hs : sec ≠ .summary)
    (hitem : st.current_item = some a) (hL : ∀ l ∈ L, IsBodyLine l) :
    processLines st L =
      some { st with current_item := some (L.foldl bodyStep a) } := by
  induction L generalizing st a with
  | nil =>
      simp only [processLines, List.foldl_nil]
      rw [← hitem]
  | cons l ls ih =>
      have h1 := parseLine_body st sec a l hsec hs hitem (hL l (by simp))
      simp only [processLines, h1, List.foldl_cons]
      exact ih { st with current_item := some (bodyStep a l) } (bodyStep a l)
        hsec rfl (fun x hx => hL x (by simp [hx]))

theorem parseLine_opener (st : ParseState) (sec : SecName) (raw : String)
    (hsec : st.current_section = some sec) (hs : sec ≠ .summary)
    (ho : IsOpenerLine raw) :
    parseLine st raw =
      some { st.flushItem sec with current_item := some (openedArticle raw) } := by
  have ho' : startsWithStr "**[" (trimStr raw) = true := ho
  obtain ⟨hb, hd, hh1, hh2, hh3, hh4⟩ := opener_line_facts (trimStr raw) ho'
  cases sec with
  | summary => exact absurd rfl hs
  | five_star =>
      simp only [parseLine, hb, hd, hh1, hh2, hh3, hh4, Bool.false_eq_true,
        if_false, hsec, tierLine, ho', if_true, ParseState.flushItem,
        openedArticle]
      cases hit : st.current_item <;>
        cases hmt : matchTitleUrl (trimStr raw) <;> simp [hit, hmt]
  | four_star =>
      simp only [parseLine, hb, hd, hh1, hh2, hh3, hh4, Bool.false_eq_true,
        if_false, hsec, tierLine, ho', if_true, ParseState.flushItem,
        openedArticle]
      cases hit : st.current_item <;>
        cases hmt : matchTitleUrl (trimStr raw) <;> simp [hit, hmt]
  | worth_viewing =>
      simp only [parseLine, hb, hd, hh1, hh2, hh3, hh4, Bool.false_eq_true,
        if_false, hsec, tierLine, ho', if_true, ParseState.flushItem,
        openedArticle]
      cases hit : st.current_item <;>
        cases hmt : matchTitleUrl (trimStr raw) <;> simp [hit, hmt]

theorem PreservesTier.refl (st : ParseState) : PreservesTier st st :=
  ⟨rfl, rfl, rfl, rfl, rfl⟩

theorem PreservesTier.trans {a b c : ParseState} (h1 : PreservesTier a b)
    (h2 : PreservesTier b c) : PreservesTier a c :=
  ⟨h2.1.trans h1.1, h2.2.1.trans h1.2.1, h2.2.2.1.trans h1.2.2.1,
    h2.2.2.2.1.trans h1.2.2.2.1, h2.2.2.2.2.trans h1.2.2.2.2⟩

theorem appendArt_section (st : ParseState) (sec : SecName) (a : Article) :
    (st.appendArt sec a).current_section = st.current_section := by
  cases sec <;> rfl

theorem appendArt_item (st : ParseState) (sec : SecName) (a : Article) :
    (st.appendArt sec a).current_item = st.current_item := by
  cases sec <;> rfl

theorem flushItem_section (st : ParseState) (sec : SecName) :
    (st.flushItem sec).current_section = st.current_section := by
  unfold ParseState.flushItem
  cases st.current_item
  · rfl
  · rw [appendArt_section]

theorem appendArts_nil (st : ParseState) (sec : SecName) :
    st.appendArts sec [] = st := by
  cases sec <;> simp [ParseState.appendArts]

theorem appendArts_cons (st : ParseState) (sec : SecName) (a : Article)
    (l : List Article) :
    st.appendArts sec (a :: l) = (st.appendArt sec a).appendArts sec l := by
  cases sec <;>
    simp [ParseState.appendArts, ParseState.appendArt, List.append_assoc]

theorem appendArts_item_update (st : ParseState) (sec : SecName)
    (v : Option Article) (l : List Article) :
    (ParseState.appendArts { st with current_item := v } sec l) =
      { st.appendArts sec l with current_item := v } := by
  cases sec <;> rfl

theorem enterTier_five_toList (st : ParseState) :
    enterTier st .five_star =
      { st with current_section := some .five_star, five_star := st.five_star ++ st.current_item.toList, current_item := none } := by
  obtain ⟨d, sm, f5, f4, w, cs, ci⟩ := st
  cases ci <;> simp [enterTier, ParseState.appendArt]

theorem enterTier_four_toList (st : ParseState) :
    enterTier st .four_star =
      { st with current_section := some .four_star, four_star := st.four_star ++ st.current_item.toList, current_item := none } := by
  obtain ⟨d, sm, f5, f4, w, cs, ci⟩ := st
  cases ci <;> simp [enterTier, ParseState.appendArt]

theorem enterTier_worth_toList (st : ParseState) :
    enterTier st .worth_viewing =
      { st with current_section := some .worth_viewing, worth_viewing := st.worth_viewing ++ st.current_item.toList, current_item := none } := by
  obtain ⟨d, sm, f5, f4, w, cs, ci⟩ := st
  cases ci <;> simp [enterTier, ParseState.appendArt]

theorem processLines_chunk (c : Chunk) (st : ParseState) (sec : SecName)
    (hwf : WFChunk c) (hsec : st.current_section = some sec)
    (hs : sec ≠ .summary) :
    processLines st (renderChunk c) =
      some { st.flushItem sec with current_item := some (articleOf c) } := by
  obtain ⟨ho, hrest⟩ := hwf
  have h1 := parseLine_opener st sec c.opener hsec hs ho
  simp only [renderChunk, processLines, h1]
  have hsec1 : (st.flushItem sec).current_section = some sec := by
    rw [flushItem_section]; exact hsec
  exact processLines_body c.rest _ sec (openedArticle c.opener) hsec1 hs rfl hrest

theorem processLines_block (b : List Chunk) (st : ParseState) (sec : SecName)
    (hwf : ∀ c ∈ b, WFChunk c) (hsec : st.current_section = some sec)
    (hs : sec ≠ .summary) :
    processLines st ((b.map renderChunk).flatten) =
      some { st.appendArts sec ((st.current_item.toList ++ b.map articleOf).dropLast) with
             current_item := (st.current_item.toList ++ b.map articleOf).getLast? } := by
  induction b generalizing st with
  | nil =>
      obtain ⟨d, sm, f5, f4, w, cs, ci⟩ := st
      cases ci <;> simp [processLines, appendArts_nil]
  | cons c b' ih =>
      have h1 := processLines_chunk c st sec (hwf c (by simp)) hsec hs
      have hsec1 : (ParseState.current_section
          { st.flushItem sec with current_item := some (articleOf c) }) = some sec := by
        show (st.flushItem sec).current_section = some sec
        rw [flushItem_section]
        exact hsec
      have h2 := ih { st.flushItem sec with current_item := some (articleOf c) }
        (fun x hx => hwf x (by simp [hx])) hsec1
      have h2' : processLines
            { st.flushItem sec with current_item := some (articleOf c) }
            ((b'.map renderChunk).flatten) =
          some { (st.flushItem sec).appendArts sec
              ((articleOf c :: b'.map articleOf).dropLast) with
            current_item := (articleOf c :: b'.map articleOf).getLast? } := by
        simpa [appendArts_item_update] using h2
      rw [List.map_cons, List.flatten_cons, processLines_append, h1,
        Option.some_bind, h2']
      cases hit : st.current_item with
      | none =>
          have hf : st.flushItem sec = st := by
            unfold ParseState.flushItem
            rw [hit]
          simp [hf, hit]
      | some a =>
          have hf : st.flushItem sec = st.appendArt sec a := by
            unfold ParseState.flushItem
            rw [hit]
          simp [hf, hit, appendArts_cons]

theorem parseLine_presection (st : ParseState) (raw : String)
    (hsec : st.current_section = none)
    (hh : trimStr raw ∉ headerStrings) :
    ∃ st', parseLine st raw = some st' ∧ PreservesTier st st' ∧
      st'.summary = st.summary := by
  simp only [headerStrings, List.mem_cons, List.not_mem_nil, or_false,
    not_or] at hh
  obtain ⟨hh1, hh2, hh3, hh4⟩ := hh
  by_cases hb : trimStr raw = ""
  · exact ⟨st, parseLine_blank st raw hb, PreservesTier.refl st, rfl⟩
  by_cases hd : startsWithStr "# Daily News" (trimStr raw) = true
  · refine ⟨{ st with date := match findDate (trimStr raw).toList with
      | some d => some d
      | none => st.date }, ?_, ⟨rfl, rfl, rfl, rfl, rfl⟩, rfl⟩
    simp [parseLine, hb, hd]
  · refine ⟨st, ?_, PreservesTier.refl st, rfl⟩
    simp [parseLine, hb, hd, hh1, hh2, hh3, hh4, hsec]

theorem parseLine_summarysec (st : ParseState) (raw : String)
    (hsec : st.current_section = some .summary)
    (hh : trimStr raw ∉ tierHeaderStrings) :
    ∃ st', parseLine st raw = some st' ∧ PreservesTier st st' := by
  simp only [tierHeaderStrings, List.mem_cons, List.not_mem_nil, or_false,
    not_or] at hh
  obtain ⟨hh2, hh3, hh4⟩ := hh
  by_cases hb : trimStr raw = ""
  · exact ⟨st, parseLine_blank st raw hb, PreservesTier.refl st⟩
  by_cases hd : startsWithStr "# Daily News" (trimStr raw) = true
  · refine ⟨{ st with date := match findDate (trimStr raw).toList with
      | some d => some d
      | none => st.date }, ?_, ⟨rfl, rfl, rfl, rfl, rfl⟩⟩
    simp [parseLine, hb, hd]
  by_cases hh1 : trimStr raw = "## 导读"
  · refine ⟨{ st with current_section := some .summary }, ?_,
      ⟨rfl, rfl, rfl, by rw [hsec], rfl⟩⟩
    have f2 : startsWithStr "# Daily News" "## 导读" = false := by decide
    have f1 : ("## 导读" : String) ≠ "" := by decide
    simp [parseLine, hh1, f1, f2]
  by_cases hbul : startsWithStr "- **" (trimStr raw) = true
  · cases hmb : matchSummaryBullet (trimStr raw) with
    | none =>
        refine ⟨st, ?_, PreservesTier.refl st⟩
        simp [parseLine, hb, hd, hh1, hh2, hh3, hh4, hsec, hbul, hmb]
    | some tc =>
        refine ⟨{ st with summary := st.summary ++ [⟨tc.1, tc.2⟩] }, ?_,
          ⟨rfl, rfl, rfl, rfl, rfl⟩⟩
        simp [parseLine, hb, hd, hh1, hh2, hh3, hh4, hsec, hbul, hmb]
  · refine ⟨st, ?_, PreservesTier.refl st⟩
    simp [parseLine, hb, hd, hh1, hh2, hh3, hh4, hsec, hbul]

theorem processLines_presection (L : List String) (st : ParseState)
    (hsec : st.current_section = none)
    (hH : ∀ l ∈ L, trimStr l ∉ headerStrings) :
    ∃ st', processLines st L = some st' ∧ PreservesTier st st' ∧
      st'.summary = st.summary := by
  induction L generalizing st with
  | nil => exact ⟨st, rfl, PreservesTier.refl st, rfl⟩
  | cons l ls ih =>
      obtain ⟨st1, h1, hp1, hsum1⟩ :=
        parseLine_presection st l hsec (hH l (by simp))
      obtain ⟨st2, h2, hp2, hsum2⟩ := ih st1
        (hp1.2.2.2.1.trans hsec) (fun x hx => hH x (by simp [hx]))
      exact ⟨st2, by simp [processLines, h1, h2], hp1.trans hp2,
        hsum2.trans hsum1⟩

theorem processLines_summarysec (L : List String) (st : ParseState)
    (hsec : st.current_section = some .summary)
    (hH : ∀ l ∈ L, trimStr l ∉ tierHeaderStrings) :
    ∃ st', processLines st L = some st' ∧ PreservesTier st st' := by
  induction L generalizing st with
  | nil => exact ⟨st, rfl, PreservesTier.refl st⟩
  | cons l ls ih =>
      obtain ⟨st1, h1, hp1⟩ := parseLine_summarysec st l hsec (hH l (by simp))
      obtain ⟨st2, h2, hp2⟩ := ih st1 (hp1.2.2.2.1.trans hsec)
        (fun x hx => hH x (by simp [hx]))
      exact ⟨st2, by simp [processLines, h1, h2], hp1.trans hp2⟩

/-! ## String helpers -/

theorem string_data_append (s t : String) : (s ++ t).data = s.data ++ t.data :=
  rfl

theorem append_ne_empty_left (s t : String) (h : s ≠ "") : s ++ t ≠ "" := by
  intro he
  apply h
  have hd : s.data ++ t.data = ([] : List Char) := congrArg String.data he
  obtain ⟨hs, -⟩ := List.append_eq_nil.mp hd
  obtain ⟨d⟩ := s
  simp at hs
  rw [hs]

theorem join_cons (s : String) (l : List String) :
    String.join (s :: l) = s ++ String.join l := by
  apply String.ext
  simp [String.data_join, string_data_append]

theorem join_map_ne_empty {α : Type} (f : α → String) (x : α) (l : List α)
    (hf : ∀ y, f y ≠ "") :
    String.join ((x :: l).map f) ≠ "" := by
  rw [List.map_cons, join_cons]
  exact append_ne_empty_left _ _ (hf x)

theorem foldl_append_entry {α : Type} (f : α → String) (l : List α)
    (acc : String) :
    l.foldl (fun h x => h ++ f x) acc = acc ++ String.join (l.map f) := by
  induction l generalizing acc with
  | nil => simp [String.join]
  | cons a as ih =>
      rw [List.foldl_cons, ih, List.map_cons, join_cons, String.append_assoc]

/-! ## The descending string order used by the date navigation -/

theorem charListLe_total : ∀ a b : List Char,
    charListLe a b = true ∨ charListLe b a = true
  | [], _ => Or.inl rfl
  | _ :: _, [] => Or.inr rfl
  | x :: xs, y :: ys => by
      by_cases h1 : x.toNat < y.toNat
      · exact Or.inl (by simp [charListLe, h1])
      by_cases h2 : y.toNat < x.toNat
      · exact Or.inr (by simp [charListLe, h2])
      cases charListLe_total xs ys with
      | inl h => exact Or.inl (by simp [charListLe, h1, h2, h])
      | inr h => exact Or.inr (by simp [charListLe, h1, h2, h])

theorem charListLe_trans : ∀ a b c : List Char, charListLe a b = true →
    charListLe b c = true → charListLe a c = true
  | [], _, _, _, _ => rfl
  | _ :: _, [], _, h1, _ => by simp [charListLe] at h1
  | _ :: _, _ :: _, [], _, h2 => by simp [charListLe] at h2
  | x :: xs, y :: ys, z :: zs, h1, h2 => by
      simp only [charListLe] at h1 h2 ⊢
      by_cases hxy : x.toNat < y.toNat
      · by_cases hyz : y.toNat < z.toNat
        · have hxz : x.toNat < z.toNat := Nat.lt_trans hxy hyz
          simp [hxz]
        · have hzy : ¬ z.toNat < y.toNat := by
            intro hzy
            simp [hyz, hzy] at h2
          have hxz : x.toNat < z.toNat := by omega
          simp [hxz]
      · by_cases hyx : y.toNat < x.toNat
        · simp [hxy, hyx] at h1
        · by_cases hyz : y.toNat < z.toNat
          · have hxz : x.toNat < z.toNat := by omega
            simp [hxz]
          · have hzy : ¬ z.toNat < y.toNat := by
              intro hzy
              simp [hyz, hzy] at h2
            have hxz : ¬ x.toNat < z.toNat := by omega
            have hzx : ¬ z.toNat < x.toNat := by omega
            simp only [hxy, hyx, if_false, if_neg] at h1
            simp only [hyz, hzy, if_false, if_neg] at h2
            simp only [hxz, hzx, if_false, if_neg]
            exact charListLe_trans xs ys zs h1 h2

instance : IsTotal String descRel :=
  ⟨fun a b => (charListLe_total b.toList a.toList).imp id id⟩

instance : IsTrans String descRel :=
  ⟨fun _ _ _ h1 h2 => charListLe_trans _ _ _ h2 h1⟩

/-! ## Continuation lines and the summary join -/

theorem bodyStep_cont (a : Article) (l : String) (hl : IsContinuationLine l) :
    bodyStep a l =
      { a with summary :=
        if a.summary = "" then trimStr l else a.summary ++ " " ++ trimStr l } := by
  obtain ⟨-, hne, hm, h3, h4⟩ := hl
  unfold bodyStep
  have hm' : ¬(startsWithStr "\x60" (trimStr l) = true ∧
      (trimStr l).toList.contains '·' = true) := by
    rintro ⟨hb1, hb2⟩
    cases hm with
    | inl h => rw [h] at hb1; cases hb1
    | inr h => rw [h] at hb2; cases hb2
  have hm2 : ¬(startsWithStr "\x60" (trimStr l) = true ∧
      '·' ∈ (trimStr l).data) := by simpa using hm'
  have hc : (¬ startsWithStr "---" (trimStr l) = true) ∧
      (¬ startsWithStr "*Generated" (trimStr l) = true) := by
    constructor
    · rw [h3]; simp
    · rw [h4]; simp
  simp [hne, hm', hm2, hc]

theorem foldl_bodyStep_cont (L : List String) (a : Article)
    (hL : ∀ l ∈ L, IsContinuationLine l) :
    L.foldl bodyStep a =
      { a with summary := (L.map trimStr).foldl joinStep a.summary } := by
  induction L generalizing a with
  | nil => rfl
  | cons l ls ih =>
      rw [List.foldl_cons, List.map_cons, List.foldl_cons,
        bodyStep_cont a l (hL l (by simp)),
        ih _ (fun x hx => hL x (by simp [hx]))]
      simp [joinStep]

theorem foldl_join_go (ls : List String) (acc : String) (hacc : acc ≠ "") :
    ls.foldl joinStep acc = String.intercalate.go acc " " ls := by
  induction ls generalizing acc with
  | nil => rfl
  | cons x xs ih =>
      rw [List.foldl_cons, joinStep, if_neg hacc, String.intercalate.go]
      exact ih (acc ++ " " ++ x)
        (append_ne_empty_left _ _ (append_ne_empty_left _ _ hacc))

theorem foldl_join_eq_intercalate (ls : List String)
    (h : ∀ s ∈ ls, s ≠ "") :
    ls.foldl joinStep "" = String.intercalate " " ls := by
  cases ls with
  | nil => rfl
  | cons x xs =>
      rw [List.foldl_cons, joinStep, if_pos rfl, String.intercalate]
      exact foldl_join_go xs x (h x (by simp))

theorem dropLast_append_getLast_toList {α : Type} (l : List α) :
    l.dropLast ++ l.getLast?.toList = l := by
  induction l using List.reverseRecOn with
  | nil => rfl
  | append_singleton l a ih => simp

/-! ## Non-emptiness of the generated HTML fragments -/

theorem articleEntry_ne_empty (a : Article) : articleEntry a ≠ "" := by
  unfold articleEntry
  repeat' apply append_ne_empty_left
  decide

theorem repoEntry_ne_empty (r : Repo) : repoEntry r ≠ "" := by
  unfold repoEntry
  repeat' apply append_ne_empty_left
  decide

theorem modelEntry_ne_empty (m : AIModel) : modelEntry m ≠ "" := by
  unfold modelEntry
  repeat' apply append_ne_empty_left
  decide

theorem toolEntry_ne_empty (t : AITool) : toolEntry t ≠ "" := by
  unfold toolEntry
  repeat' apply append_ne_empty_left
  decide

theorem newsEntry_ne_empty (n : NewsItem) : newsEntry n ≠ "" := by
  unfold newsEntry
  repeat' apply append_ne_empty_left
  decide

theorem foldl_articles (l : List Article) (acc : String) :
    l.foldl (fun html a => if a.title = "" then html else html ++ articleEntry a) acc =
      acc ++ String.join ((l.filter (fun a => a.title ≠ "")).map articleEntry) := by
  induction l generalizing acc with
  | nil => simp [String.join]
  | cons a as ih =>
      by_cases h : a.title = ""
      · rw [List.foldl_cons, if_pos h, List.filter_cons_of_neg (by simp [h]), ih]
      · rw [List.foldl_cons, if_neg h, List.filter_cons_of_pos (by simp [h]),
          List.map_cons, join_cons, ih, String.append_assoc]

theorem generate_articles_eq_join (articles : List Article) (stars : Nat) :
    generate_articles articles stars =
      String.join ((articles.filter (fun a => a.title ≠ "")).map articleEntry) := by
  unfold generate_articles
  rw [foldl_articles]
  simp

theorem join_filter_eq_empty_iff (articles : List Article) :
    String.join ((articles.filter (fun a => a.title ≠ "")).map articleEntry) = "" ↔
      articles.filter (fun a => a.title ≠ "") = [] := by
  constructor
  · intro h
    cases hf : articles.filter (fun a => a.title ≠ "") with
    | nil => rfl
    | cons x xs =>
        rw [hf] at h
        exact absurd h (join_map_ne_empty articleEntry x xs articleEntry_ne_empty)
  · intro h
    rw [h]
    rfl

theorem processLines_cons_of (st st' : ParseState) (l : String)
    (h : parseLine st l = some st') (ls : List String) :
    processLines st (l :: ls) = processLines st' ls := by
  simp [processLines, h]

theorem finalizeState_worth (st : ParseState)
    (hsec : st.current_section = some .worth_viewing) :
    finalizeState st =
      ⟨st.date, "", st.summary, st.five_star, st.four_star, st.worth_viewing ++ st.current_item.toList⟩ := by
  unfold finalizeState
  cases hit : st.current_item <;> simp [hsec, hit, ParseState.appendArt]

theorem finalizeState_summary (st : ParseState)
    (hsec : st.current_section = some .summary) :
    finalizeState st =
      ⟨st.date, "", st.summary, st.five_star, st.four_star, st.worth_viewing⟩ := by
  unfold finalizeState
  cases hit : st.current_item <;> simp [hsec, hit]

/-! ## Claims -/

/-- C1, counterexample: on the input `"## 五星推荐\n**[A](u)**\n## 四星推荐"`
the pending five-star article is NOT appended to the section being left
(`five_star`); the claim's predicted outcome (five_star `[A]`, four_star
empty) does not hold. -/
theorem C1_counterexample :
    ¬ ((parse_markdown "## 五星推荐\n**[A](u)**\n## 四星推荐").map
        (fun r => (r.five_star, r.four_star)) =
      some ([⟨"A", "u", "", ""⟩], [])) := by decide

/-- C1 (amended): when the parser meets a rating-tier section header while
an Article accumulator is in progress, the accumulator is finalized and
appended to the list of the tier being ENTERED (never to the summary list,
the newly assigned section being a rating tier), and the accumulator is
cleared. -/
theorem C1_tier_header_flush (st : ParseState) (it : Article)
    (h : st.current_item = some it) :
    parseLine st "## 五星推荐" =
        some { st with current_section := some .five_star, five_star := st.five_star ++ [it], current_item := none } ∧
    parseLine st "## 四星推荐" =
        some { st with current_section := some .four_star, four_star := st.four_star ++ [it], current_item := none } ∧
    parseLine st "## 值得一看" =
        some { st with current_section := some .worth_viewing, worth_viewing := st.worth_viewing ++ [it], current_item := none } :=
  ⟨by rw [parseLine_fiveHeader, enterTier_five st it h],
   by rw [parseLine_fourHeader, enterTier_four st it h],
   by rw [parseLine_worthHeader, enterTier_worth st it h]⟩

/-- Witness for C1 at a concrete state: an article pending in the
five-star section is appended to `four_star` on `## 四星推荐`. -/
theorem C1_tier_header_flush_witness :
    parseLine ⟨none, [], [], [], [], some .five_star, some ⟨"A", "u", "", ""⟩⟩
        "## 四星推荐" =
      some ⟨none, [], [], [⟨"A", "u", "", ""⟩], [], some .four_star, none⟩ := by
  have h := (C1_tier_header_flush
    ⟨none, [], [], [], [], some .five_star, some ⟨"A", "u", "", ""⟩⟩
    ⟨"A", "u", "", ""⟩ rfl).2.1
  simpa using h

/-- C2, counterexample: a backtick-meta line inside a rating-tier section
before any bold-link opener makes `parse_markdown` raise a `TypeError`
(modelled as `none`), so the parser is not total. -/
theorem C2_counterexample :
    parse_markdown "## 五星推荐\n\x60A · B\x60" = none := by decide

/-- C2 (amended): `parse_markdown` raises (returns `none`) exactly when
some line of the input is reached inside a rating-tier section with no
Article accumulator in progress and is a backtick-meta line or a
summary-continuation line; on every other input it returns a Report.
Unrecognized lines are otherwise silently ignored. -/
theorem C2_parse_markdown_raises_iff (md : String) :
    parse_markdown md = none ↔
      ∃ pre raw post st, splitLines md = pre ++ raw :: post ∧
        processLines initState pre = some st ∧ crashCond st raw := by
  unfold parse_markdown
  rw [Option.map_eq_none', processLines_none_iff]
  constructor
  · rintro ⟨pre, raw, post, st, h1, h2, h3⟩
    exact ⟨pre, raw, post, st, h1, h2, (parseLine_none_iff st raw).mp h3⟩
  · rintro ⟨pre, raw, post, st, h1, h2, h3⟩
    exact ⟨pre, raw, post, st, h1, h2, (parseLine_none_iff st raw).mpr h3⟩

/-- C3, counterexample: on the spec's scenario input, the five-star list
does not contain the article (and four_star is not empty). -/
theorem C3_counterexample :
    ¬ ((parse_markdown "## 五星推荐\n**[Foo](http://x)**\n\x60AI · 5min\x60\nGreat read.\nMore text.\n## 四星推荐\n").map
        (fun r => (r.five_star, r.four_star.length)) =
      some ([⟨"Foo", "http://x", "Great read. More text.", "AI · 5min"⟩], 0)) := by
  decide

/-- C3 (amended): the scenario input yields exactly one Article — title
`Foo`, url `http://x`, meta `AI · 5min`, summary `Great read. More text.` —
but it ends up in the FOUR-star list (flushed on entering `## 四星推荐`),
and the five-star list is empty. -/
theorem C3_scenario_actual :
    parse_markdown "## 五星推荐\n**[Foo](http://x)**\n\x60AI · 5min\x60\nGreat read.\nMore text.\n## 四星推荐\n" =
      some ⟨none, "", [], [],
        [⟨"Foo", "http://x", "Great read. More text.", "AI · 5min"⟩], []⟩ := by
  decide

/-- C10: entering the summary section (`## 导读`) leaves the in-progress
accumulator untouched; while the summary section is active no line other
than a rating-tier header touches it; it is appended to the list of the
next rating-tier section subsequently entered; and at end of input it is
silently dropped when the active section is still the summary. -/
theorem C10_summary_keeps_accumulator (st : ParseState) (it : Article)
    (h : st.current_item = some it) :
    (parseLine st "## 导读" =
        some { st with current_section := some .summary } ∧
      (ParseState.current_item { st with current_section := some .summary }) = some it) ∧
    (∀ raw, st.current_section = some .summary →
      trimStr raw ∉ tierHeaderStrings →
      ∃ st', parseLine st raw = some st' ∧ st'.current_item = some it ∧
        st'.current_section = some .summary) ∧
    (parseLine st "## 四星推荐" =
      some { st with current_section := some .four_star, four_star := st.four_star ++ [it], current_item := none }) ∧
    (st.current_section = some .summary →
      finalizeState st =
        ⟨st.date, "", st.summary, st.five_star, st.four_star, st.worth_viewing⟩) := by
  refine ⟨⟨parseLine_summaryHeader st, h⟩, ?_, ?_, ?_⟩
  · intro raw hsec hh
    obtain ⟨st', h1, hp⟩ := parseLine_summarysec st raw hsec hh
    exact ⟨st', h1, hp.2.2.2.2.trans h, hp.2.2.2.1.trans hsec⟩
  · rw [parseLine_fourHeader, enterTier_four st it h]
  · exact finalizeState_summary st

/-- Witness for C10 at a concrete state. -/
theorem C10_summary_keeps_accumulator_witness :
    ∃ st', parseLine ⟨none, [], [], [], [], some .summary, some ⟨"A", "u", "", ""⟩⟩
        "still summary text" = some st' ∧
      st'.current_item = some ⟨"A", "u", "", ""⟩ ∧
      st'.current_section = some .summary :=
  (C10_summary_keeps_accumulator
    ⟨none, [], [], [], [], some .summary, some ⟨"A", "u", "", ""⟩⟩
    ⟨"A", "u", "", ""⟩ rfl).2.1 "still summary text" rfl (by decide)

theorem five_star_section_empty_iff (html : String) :
    five_star_section html = "" ↔ html = "" := by
  by_cases h : html = ""
  · simp [five_star_section, h]
  · refine iff_of_false ?_ h
    unfold five_star_section
    rw [if_neg h]
    repeat' apply append_ne_empty_left
    decide

theorem four_star_section_empty_iff (html : String) :
    four_star_section html = "" ↔ html = "" := by
  by_cases h : html = ""
  · simp [four_star_section, h]
  · refine iff_of_false ?_ h
    unfold four_star_section
    rw [if_neg h]
    repeat' apply append_ne_empty_left
    decide

theorem worth_section_empty_iff (html : String) :
    worth_section html = "" ↔ html = "" := by
  by_cases h : html = ""
  · simp [worth_section, h]
  · refine iff_of_false ?_ h
    unfold worth_section
    rw [if_neg h]
    repeat' apply append_ne_empty_left
    decide

theorem github_section_empty_iff (html : String) :
    github_section html = "" ↔ html = "" := by
  by_cases h : html = ""
  · simp [github_section, h]
  · refine iff_of_false ?_ h
    unfold github_section
    rw [if_neg h]
    repeat' apply append_ne_empty_left
    decide

theorem ai_models_section_empty_iff (html : String) :
    ai_models_section html = "" ↔ html = "" := by
  by_cases h : html = ""
  · simp [ai_models_section, h]
  · refine iff_of_false ?_ h
    unfold ai_models_section
    rw [if_neg h]
    repeat' apply append_ne_empty_left
    decide

theorem ai_tools_section_empty_iff (html : String) :
    ai_tools_section html = "" ↔ html = "" := by
  by_cases h : html = ""
  · simp [ai_tools_section, h]
  · refine iff_of_false ?_ h
    unfold ai_tools_section
    rw [if_neg h]
    repeat' apply append_ne_empty_left
    decide

theorem ai_news_section_empty_iff (html : String) :
    ai_news_section html = "" ↔ html = "" := by
  by_cases h : html = ""
  · simp [ai_news_section, h]
  · refine iff_of_false ?_ h
    unfold ai_news_section
    rw [if_neg h]
    repeat' apply append_ne_empty_left
    decide

theorem generate_github_list_eq (repos : List Repo) :
    generate_github_list repos = String.join (repos.map repoEntry) := by
  unfold generate_github_list
  rw [foldl_append_entry]
  simp

theorem generate_ai_models_list_eq (models : List AIModel) :
    generate_ai_models_list models =
      String.join ((models.take 8).map modelEntry) := by
  unfold generate_ai_models_list
  rw [foldl_append_entry]
  simp

theorem generate_ai_tools_list_eq (tools : List AITool) :
    generate_ai_tools_list tools =
      String.join ((tools.take 16).map toolEntry) := by
  unfold generate_ai_tools_list
  rw [foldl_append_entry]
  simp

theorem generate_ai_news_list_eq (news : List NewsItem) :
    generate_ai_news_list news =
      String.join ((news.take 15).map newsEntry) := by
  unfold generate_ai_news_list
  rw [foldl_append_entry]
  simp

theorem join_take_map_empty_iff {α : Type} (f : α → String) (n : Nat)
    (hn : n ≠ 0) (hf : ∀ y, f y ≠ "") (l : List α) :
    String.join ((l.take n).map f) = "" ↔ l = [] := by
  cases l with
  | nil => simp [String.join]
  | cons x xs =>
      refine iff_of_false ?_ (by simp)
      obtain ⟨m, rfl⟩ := Nat.exists_eq_succ_of_ne_zero hn
      rw [List.take_succ_cons]
      exact join_map_ne_empty f x _ hf

/-- C5: in each of the three rating tiers, the renderer emits one entry per
Article with a non-empty title, in original list order; an Article with an
empty title is never emitted; the whole tier block is omitted exactly when
no Article of that tier has a non-empty title; and the parser itself keeps
empty-title Articles in its output lists (an opener line failing the
title/url pattern still yields an appended Article with empty title). -/
theorem C5_render_filters_empty_titles :
    (∀ (articles : List Article) (stars : Nat),
      generate_articles articles stars =
        String.join ((articles.filter (fun a => a.title ≠ "")).map articleEntry)) ∧
    (∀ articles : List Article,
      five_star_section (generate_articles articles 5) = "" ↔
        articles.filter (fun a => a.title ≠ "") = []) ∧
    (∀ articles : List Article,
      four_star_section (generate_articles articles 4) = "" ↔
        articles.filter (fun a => a.title ≠ "") = []) ∧
    (∀ articles : List Article,
      worth_section (generate_articles articles 3) = "" ↔
        articles.filter (fun a => a.title ≠ "") = []) ∧
    parse_markdown "## 五星推荐\n**[x**" =
      some ⟨none, "", [], [⟨"", "", "", ""⟩], [], []⟩ := by
  refine ⟨generate_articles_eq_join, ?_, ?_, ?_, by decide⟩
  · intro articles
    rw [five_star_section_empty_iff, generate_articles_eq_join,
      join_filter_eq_empty_iff]
  · intro articles
    rw [four_star_section_empty_iff, generate_articles_eq_join,
      join_filter_eq_empty_iff]
  · intro articles
    rw [worth_section_empty_iff, generate_articles_eq_join,
      join_filter_eq_empty_iff]

theorem producthunt_section_empty_iff (html : String) :
    producthunt_section html = "" ↔ html = "" := by
  by_cases h : html = ""
  · simp [producthunt_section, h]
  · refine iff_of_false ?_ h
    unfold producthunt_section
    rw [if_neg h]
    repeat' apply append_ne_empty_left
    decide

theorem ai_trends_section_empty_iff (html : String) :
    ai_trends_section html = "" ↔ html = "" := by
  by_cases h : html = ""
  · simp [ai_trends_section, h]
  · refine iff_of_false ?_ h
    unfold ai_trends_section
    rw [if_neg h]
    repeat' apply append_ne_empty_left
    decide

theorem productEntry_ne_empty (i : Nat) (p : Product) : productEntry i p ≠ "" := by
  unfold productEntry
  repeat' apply append_ne_empty_left
  decide

theorem trendEntry_ne_empty (t : AITrend) : trendEntry t ≠ "" := by
  unfold trendEntry
  repeat' apply append_ne_empty_left
  decide

theorem productListAux_eq (i : Nat) (ps : List Product) :
    productListAux i ps =
      String.join ((ps.enumFrom i).map (fun q => productEntry q.1 q.2)) := by
  induction ps generalizing i with
  | nil => rfl
  | cons p ps ih =>
      show productEntry i p ++ productListAux (i + 1) ps = _
      rw [ih, show (p :: ps).enumFrom i = (i, p) :: ps.enumFrom (i + 1) from rfl,
        List.map_cons, join_cons]

theorem generate_product_list_eq (products : List Product) :
    generate_product_list products =
      String.join ((products.enumFrom 1).map (fun q => productEntry q.1 q.2)) :=
  productListAux_eq 1 products

theorem generate_ai_trends_list_eq (trends : List AITrend) :
    generate_ai_trends_list trends = String.join (trends.map trendEntry) := by
  unfold generate_ai_trends_list
  rw [foldl_append_entry]
  simp

theorem bodyStep_body (a : Article) (l : String) (hl : IsBodyLine l) :
    (bodyStep a l).summary =
      (if IsContinuationLine l then joinStep a.summary (trimStr l)
       else a.summary) ∧
    (bodyStep a l).title = a.title ∧ (bodyStep a l).url = a.url := by
  unfold bodyStep
  by_cases h0 : trimStr l = ""
  · have hnc : ¬ IsContinuationLine l := fun hc => hc.2.1 h0
    simp [h0, hnc]
  · by_cases hm : startsWithStr "\x60" (trimStr l) = true ∧
        (trimStr l).toList.contains '·' = true
    · have hnc : ¬ IsContinuationLine l := by
        rintro ⟨-, -, hor, -, -⟩
        obtain ⟨hA, hB⟩ := hm
        cases hor with
        | inl h => rw [h] at hA; cases hA
        | inr h => rw [h] at hB; cases hB
      have hm2 : '·' ∈ (trimStr l).data := by simpa using hm.2
      simp [h0, hm.1, hm2, hnc]
    · by_cases hg : (¬ startsWithStr "---" (trimStr l) = true) ∧
          (¬ startsWithStr "*Generated" (trimStr l) = true)
      · have hA : startsWithStr "\x60" (trimStr l) = false ∨
            (trimStr l).toList.contains '·' = false := by
          by_cases hA1 : startsWithStr "\x60" (trimStr l) = true
          · exact Or.inr (Bool.of_not_eq_true fun hB => hm ⟨hA1, hB⟩)
          · exact Or.inl (Bool.of_not_eq_true hA1)
        have hc : IsContinuationLine l :=
          ⟨hl, h0, hA, Bool.of_not_eq_true hg.1, Bool.of_not_eq_true hg.2⟩
        have hm2 : ¬(startsWithStr "\x60" (trimStr l) = true ∧
            '·' ∈ (trimStr l).data) := by
          rintro ⟨hb1, hb2⟩
          cases hA with
          | inl h => rw [h] at hb1; cases hb1
          | inr h => exact (by simpa using h : '·' ∉ (trimStr l).data) hb2
        simp [h0, hm2, hg, hc, joinStep]
      · have hnc : ¬ IsContinuationLine l := by
          rintro ⟨-, -, -, h4, h5⟩
          exact hg ⟨by rw [h4]; simp, by rw [h5]; simp⟩
        have hm2 : ¬(startsWithStr "\x60" (trimStr l) = true ∧
            '·' ∈ (trimStr l).data) := by
          rintro ⟨hb1, hb2⟩
          exact hm ⟨hb1, by simpa using hb2⟩
        have hg2 : ¬(startsWithStr "---" (trimStr l) = false ∧
            startsWithStr "*Generated" (trimStr l) = false) := by
          rintro ⟨h4, h5⟩
          exact hg ⟨by rw [h4]; simp, by rw [h5]; simp⟩
        simp [h0, hm2, hg2, hnc]

theorem foldl_bodyStep_body (L : List String) (a : Article)
    (hL : ∀ l ∈ L, IsBodyLine l) :
    (L.foldl bodyStep a).summary =
      ((L.filter (fun l => decide (IsContinuationLine l))).map trimStr).foldl
        joinStep a.summary ∧
    (L.foldl bodyStep a).title = a.title ∧
    (L.foldl bodyStep a).url = a.url := by
  induction L generalizing a with
  | nil => exact ⟨rfl, rfl, rfl⟩
  | cons l ls ih =>
      obtain ⟨hs, ht, hu⟩ := bodyStep_body a l (hL l (by simp))
      obtain ⟨ihs, iht, ihu⟩ := ih (bodyStep a l) (fun x hx => hL x (by simp [hx]))
      rw [List.foldl_cons]
      by_cases hc : IsContinuationLine l
      · rw [List.filter_cons_of_pos (by simpa using hc), List.map_cons,
          List.foldl_cons]
        refine ⟨?_, iht.trans ht, ihu.trans hu⟩
        rw [ihs, hs, if_pos hc]
      · rw [List.filter_cons_of_neg (by simpa using hc)]
        refine ⟨?_, iht.trans ht, ihu.trans hu⟩
        rw [ihs, hs, if_neg hc]

/-- C6: within a rating-tier section, the summary of the Article being
accumulated is the single-space join, in input order, of the stripped
non-special continuation lines among ALL the lines processed before its
finalization — blank lines, backtick-meta lines, horizontal rules and
Generated-footer markers interleaved with the text are skipped and the
title and url are untouched; and an Article followed only by one
backtick-meta line keeps `summary = ""`. -/
theorem C6_summary_joins_continuations :
    (∀ (st : ParseState) (sec : SecName) (a : Article) (L : List String),
      st.current_section = some sec → sec ≠ .summary →
      st.current_item = some a → a.summary = "" →
      (∀ l ∈ L, IsBodyLine l) →
      ∃ a', processLines st L = some { st with current_item := some a' } ∧
        a'.summary = String.intercalate " "
          ((L.filter (fun l => decide (IsContinuationLine l))).map trimStr) ∧
        a'.title = a.title ∧ a'.url = a.url) ∧
    parse_markdown "## 五星推荐\n**[Foo](http://x)**\n\x60AI · 5min\x60" =
      some ⟨none, "", [], [⟨"Foo", "http://x", "", "AI · 5min"⟩], [], []⟩ := by
  constructor
  · intro st sec a L hsec hs hitem hsum hL
    refine ⟨L.foldl bodyStep a,
      processLines_body L st sec a hsec hs hitem hL, ?_,
      (foldl_bodyStep_body L a hL).2.1, (foldl_bodyStep_body L a hL).2.2⟩
    have hne : ∀ s ∈ (L.filter (fun l => decide (IsContinuationLine l))).map
        trimStr, s ≠ "" := by
      intro s hsmem
      obtain ⟨x, hxmem, rfl⟩ := List.mem_map.mp hsmem
      rw [List.mem_filter] at hxmem
      exact (of_decide_eq_true hxmem.2).2.1
    have h2 := foldl_join_eq_intercalate _ hne
    rw [(foldl_bodyStep_body L a hL).1, hsum]
    exact h2
  · decide

/-- Witness for C6: two continuation lines interleaved with a blank line, a
backtick-meta line and a horizontal rule are joined with one space, the
special lines being skipped. -/
theorem C6_summary_joins_continuations_witness :
    ∃ a', processLines
        ⟨none, [], [], [], [], some SecName.five_star, some ⟨"T", "u", "", ""⟩⟩
        ["hello", "   ", "\x60AI · 5min\x60", "world", "---"] =
      some ⟨none, [], [], [], [], some SecName.five_star, some a'⟩ ∧
      a'.summary = String.intercalate " "
        (((["hello", "   ", "\x60AI · 5min\x60", "world", "---"] :
            List String).filter
          (fun l => decide (IsContinuationLine l))).map trimStr) ∧
      a'.title = "T" ∧ a'.url = "u" :=
  C6_summary_joins_continuations.1
    ⟨none, [], [], [], [], some SecName.five_star, some ⟨"T", "u", "", ""⟩⟩
    SecName.five_star ⟨"T", "u", "", ""⟩
    ["hello", "   ", "\x60AI · 5min\x60", "world", "---"]
    rfl (by decide) rfl rfl (by decide)

set_option maxRecDepth 100000 in
/-- C7: the date-navigation strip consists of one link per known date, laid
out in descending lexicographic order, with exactly the link whose date
equals the current report's date carrying the `active` class; on the
example dates 2024-01-01/03/02 with current 2024-01-02 the three links
appear as 03, 02, 01 with only 02 active. -/
theorem C7_date_nav (dates : List String) (cur : String) (h : dates.Nodup) :
    ∃ L : List String, L.Perm dates ∧ L.Sorted descRel ∧ L.Nodup ∧
      genDateNav dates (some cur) = String.join (L.map (dateLink (some cur))) ∧
      (∀ d, dateLink (some cur) d =
        "<a href=\"" ++ d ++ ".html\" class=\"date-link " ++
          (if d = cur then "active" else "") ++ "\">" ++ d ++ "</a>") ∧
      genDateNav ["2024-01-01", "2024-01-03", "2024-01-02"] (some "2024-01-02") =
        dateLink (some "2024-01-02") "2024-01-03" ++
          (dateLink (some "2024-01-02") "2024-01-02" ++
            dateLink (some "2024-01-02") "2024-01-01") := by
  refine ⟨sortedDesc dates, List.perm_insertionSort _ _,
    List.sorted_insertionSort _ _,
    (List.perm_insertionSort _ _).nodup_iff.mpr h, ?_, ?_, ?_⟩
  · unfold genDateNav
    rw [foldl_append_entry]
    simp
  · intro d
    unfold dateLink
    by_cases hd : d = cur
    · simp [hd]
    · simp [hd]
  · decide

/-- C8: each auxiliary listing block (Product Hunt, GitHub trending, AI
models, AI tools, AI trends, AI news) is omitted entirely when its list is
empty; a non-empty list yields one entry per item in order (products
numbered from 1), truncated to 8 entries for AI models, 16 for AI tools and
15 for AI news; and the repository language-colour lookup falls back to
`#666666` for unknown languages. -/
theorem C8_aux_lists (products : List Product) (repos : List Repo)
    (models : List AIModel) (tools : List AITool) (trends : List AITrend)
    (news : List NewsItem) :
    generate_product_list products =
      String.join ((products.enumFrom 1).map (fun q => productEntry q.1 q.2)) ∧
    (producthunt_section (generate_product_list products) = "" ↔
      products = []) ∧
    generate_github_list repos = String.join (repos.map repoEntry) ∧
    (github_section (generate_github_list repos) = "" ↔ repos = []) ∧
    generate_ai_models_list models =
      String.join ((models.take 8).map modelEntry) ∧
    (ai_models_section (generate_ai_models_list models) = "" ↔ models = []) ∧
    generate_ai_tools_list tools =
      String.join ((tools.take 16).map toolEntry) ∧
    (ai_tools_section (generate_ai_tools_list tools) = "" ↔ tools = []) ∧
    generate_ai_trends_list trends = String.join (trends.map trendEntry) ∧
    (ai_trends_section (generate_ai_trends_list trends) = "" ↔ trends = []) ∧
    generate_ai_news_list news = String.join ((news.take 15).map newsEntry) ∧
    (ai_news_section (generate_ai_news_list news) = "" ↔ news = []) ∧
    (∀ language, language ∉ (["Python", "JavaScript", "TypeScript", "Go",
        "Rust", "Java", "C++", "C"] : List String) →
      langColorOf language = "#666666") := by
  refine ⟨generate_product_list_eq products, ?_, generate_github_list_eq repos,
    ?_, generate_ai_models_list_eq models, ?_, generate_ai_tools_list_eq tools,
    ?_, generate_ai_trends_list_eq trends, ?_, generate_ai_news_list_eq news,
    ?_, ?_⟩
  · rw [producthunt_section_empty_iff, generate_product_list_eq]
    cases products with
    | nil => simp [String.join]
    | cons p ps =>
        refine iff_of_false ?_ (by simp)
        rw [show (p :: ps).enumFrom 1 = (1, p) :: ps.enumFrom 2 from rfl,
          List.map_cons, join_cons]
        exact append_ne_empty_left _ _ (productEntry_ne_empty 1 p)
  · rw [github_section_empty_iff, generate_github_list_eq]
    cases repos with
    | nil => simp [String.join]
    | cons r rs =>
        refine iff_of_false ?_ (by simp)
        exact join_map_ne_empty repoEntry r rs repoEntry_ne_empty
  · rw [ai_models_section_empty_iff, generate_ai_models_list_eq]
    exact join_take_map_empty_iff modelEntry 8 (by decide) modelEntry_ne_empty
      models
  · rw [ai_tools_section_empty_iff, generate_ai_tools_list_eq]
    exact join_take_map_empty_iff toolEntry 16 (by decide) toolEntry_ne_empty
      tools
  · rw [ai_trends_section_empty_iff, generate_ai_trends_list_eq]
    cases trends with
    | nil => simp [String.join]
    | cons t ts =>
        refine iff_of_false ?_ (by simp)
        exact join_map_ne_empty trendEntry t ts trendEntry_ne_empty
  · rw [ai_news_section_empty_iff, generate_ai_news_list_eq]
    exact join_take_map_empty_iff newsEntry 15 (by decide) newsEntry_ne_empty
      news
  · intro language hmem
    simp only [List.mem_cons, List.not_mem_nil, or_false, not_or] at hmem
    obtain ⟨n1, n2, n3, n4, n5, n6, n7, n8⟩ := hmem
    simp [langColorOf, n1, n2, n3, n4, n5, n6, n7, n8]

/-- Witness for C8: empty lists give omitted blocks for the Product Hunt,
GitHub and AI-trend listings, and an unknown language falls back to the
neutral gray. -/
theorem C8_aux_lists_witness :
    (producthunt_section (generate_product_list []) = "" ↔
      ([] : List Product) = []) ∧
    (github_section (generate_github_list []) = "" ↔ ([] : List Repo) = []) ∧
    (ai_trends_section (generate_ai_trends_list []) = "" ↔
      ([] : List AITrend) = []) ∧
      langColorOf "Lean" = "#666666" :=
  ⟨(C8_aux_lists [] [] [] [] [] []).2.1,
   (C8_aux_lists [] [] [] [] [] []).2.2.2.1,
   (C8_aux_lists [] [] [] [] [] []).2.2.2.2.2.2.2.2.2.1,
   (C8_aux_lists [] [] [] [] [] []).2.2.2.2.2.2.2.2.2.2.2.2 "Lean"
     (by decide)⟩

/-- C9: the Markdown → HTML generation is deterministic: two runs of
`parse_markdown` followed by `generate_html` on identical Markdown text,
identical known-date sets and identical auxiliary lists produce identical
HTML strings. -/
theorem C9_pipeline_deterministic (md1 md2 : String)
    (dates1 dates2 : List String) (ph1 ph2 : List Product)
    (gh1 gh2 : List Repo) (mo1 mo2 : List AIModel) (tl1 tl2 : List AITool)
    (tr1 tr2 : List AITrend) (nw1 nw2 : List NewsItem)
    (h1 : md1 = md2) (h2 : dates1 = dates2) (h3 : ph1 = ph2) (h4 : gh1 = gh2)
    (h5 : mo1 = mo2) (h6 : tl1 = tl2) (h7 : tr1 = tr2) (h8 : nw1 = nw2) :
    pipeline md1 dates1 ph1 gh1 mo1 tl1 tr1 nw1 =
      pipeline md2 dates2 ph2 gh2 mo2 tl2 tr2 nw2 := by
  subst h1 h2 h3 h4 h5 h6 h7 h8
  rfl

/-- Witness for C9 at a concrete input. -/
theorem C9_pipeline_deterministic_witness :
    pipeline "## 导读" ["2024-01-01"] [] [] [] [] [] [] =
      pipeline "## 导读" ["2024-01-01"] [] [] [] [] [] [] :=
  C9_pipeline_deterministic "## 导读" "## 导读" ["2024-01-01"] ["2024-01-01"]
    [] [] [] [] [] [] [] [] [] [] [] [] rfl rfl rfl rfl rfl rfl rfl rfl

/-- Witness for C7 at the example dates. -/
theorem C7_date_nav_witness :
    ∃ L : List String, L.Perm ["2024-01-01", "2024-01-03", "2024-01-02"] ∧
      L.Sorted descRel ∧ L.Nodup ∧
      genDateNav ["2024-01-01", "2024-01-03", "2024-01-02"] (some "2024-01-02") =
        String.join (L.map (dateLink (some "2024-01-02"))) ∧
      (∀ d, dateLink (some "2024-01-02") d =
        "<a href=\"" ++ d ++ ".html\" class=\"date-link " ++
          (if d = "2024-01-02" then "active" else "") ++ "\">" ++ d ++ "</a>") ∧
      genDateNav ["2024-01-01", "2024-01-03", "2024-01-02"] (some "2024-01-02") =
        dateLink (some "2024-01-02") "2024-01-03" ++
          (dateLink (some "2024-01-02") "2024-01-02" ++
            dateLink (some "2024-01-02") "2024-01-01") :=
  C7_date_nav ["2024-01-01", "2024-01-03", "2024-01-02"] "2024-01-02" (by decide)

set_option maxRecDepth 40000 in
/-- C4, counterexample: with headers in canonical order and two openers in
the five-star section, one in the four-star section and one in the
worth-viewing section, the per-tier list lengths are NOT (2, 1, 1); the
last article of each tier slips into the next tier's list. -/
theorem C4_counterexample :
    ¬ ((parse_markdown
        "## 导读\n## 五星推荐\n**[A](u)**\n**[B](v)**\n## 四星推荐\n**[C](w)**\n## 值得一看\n**[D](x)**").map
          (fun r => (r.five_star.length, r.four_star.length, r.worth_viewing.length)) =
      some (2, 1, 1)) := by decide

/-- C4 (amended): for report text whose headers appear in canonical order,
each tier list preserves input order, but the lists are shifted by one
chunk: `five_star` holds all but the last five-star article, `four_star`
holds the last five-star article followed by all but the last four-star
article, and `worth_viewing` holds the last four-star article followed by
all worth-viewing articles (the final pending article is flushed into
`worth_viewing` by the trailing flush at end of input). -/
theorem C4_canonical_order (pre sums : List String) (b1 b2 b3 : List Chunk)
    (hpre : ∀ l ∈ pre, trimStr l ∉ headerStrings)
    (hsums : ∀ l ∈ sums, trimStr l ∉ tierHeaderStrings)
    (hb1 : ∀ c ∈ b1, WFChunk c) (hb2 : ∀ c ∈ b2, WFChunk c)
    (hb3 : ∀ c ∈ b3, WFChunk c) :
    ∃ r, parse_lines (canonicalLines pre sums b1 b2 b3) = some r ∧
      r.five_star = (b1.map articleOf).dropLast ∧
      r.four_star =
        ((b1.map articleOf).getLast?).toList ++ (b2.map articleOf).dropLast ∧
      r.worth_viewing =
        ((b2.map articleOf).getLast?).toList ++ b3.map articleOf := by
  have hfive : (SecName.five_star : SecName) ≠ SecName.summary := by decide
  have hfour : (SecName.four_star : SecName) ≠ SecName.summary := by decide
  have hworth : (SecName.worth_viewing : SecName) ≠ SecName.summary := by decide
  obtain ⟨st1, h1, hp1, -⟩ := processLines_presection pre initState rfl hpre
  obtain ⟨d1, sm1, f51, f41, w1, cs1, ci1⟩ := st1
  obtain ⟨hf5₁, hf4₁, hw₁, hcs₁, hci₁⟩ := hp1
  obtain rfl : f51 = [] := hf5₁
  obtain rfl : f41 = [] := hf4₁
  obtain rfl : w1 = [] := hw₁
  obtain rfl : cs1 = none := hcs₁
  obtain rfl : ci1 = none := hci₁
  have h2 : parseLine ⟨d1, sm1, [], [], [], none, none⟩ "## 导读" =
      some ⟨d1, sm1, [], [], [], some SecName.summary, none⟩ :=
    parseLine_summaryHeader _
  obtain ⟨st3, h3, hp3⟩ := processLines_summarysec sums
    ⟨d1, sm1, [], [], [], some SecName.summary, none⟩ rfl hsums
  obtain ⟨d3, sm3, f53, f43, w3, cs3, ci3⟩ := st3
  obtain ⟨hf5₃, hf4₃, hw₃, hcs₃, hci₃⟩ := hp3
  obtain rfl : f53 = [] := hf5₃
  obtain rfl : f43 = [] := hf4₃
  obtain rfl : w3 = [] := hw₃
  obtain rfl : cs3 = some SecName.summary := hcs₃
  obtain rfl : ci3 = none := hci₃
  have h4 : parseLine ⟨d3, sm3, [], [], [], some SecName.summary, none⟩
      "## 五星推荐" =
      some ⟨d3, sm3, [], [], [], some SecName.five_star, none⟩ :=
    parseLine_fiveHeader _
  have h5 : processLines ⟨d3, sm3, [], [], [], some SecName.five_star, none⟩
      ((b1.map renderChunk).flatten) =
      some ⟨d3, sm3, (b1.map articleOf).dropLast, [], [],
        some SecName.five_star, (b1.map articleOf).getLast?⟩ :=
    processLines_block b1 _ .five_star hb1 rfl hfive
  have h6 : parseLine ⟨d3, sm3, (b1.map articleOf).dropLast, [], [],
        some SecName.five_star, (b1.map articleOf).getLast?⟩ "## 四星推荐" =
      some ⟨d3, sm3, (b1.map articleOf).dropLast,
        ((b1.map articleOf).getLast?).toList, [],
        some SecName.four_star, none⟩ := by
    rw [parseLine_fourHeader, enterTier_four_toList]
    rfl
  have h7 : processLines ⟨d3, sm3, (b1.map articleOf).dropLast,
        ((b1.map articleOf).getLast?).toList, [],
        some SecName.four_star, none⟩ ((b2.map renderChunk).flatten) =
      some ⟨d3, sm3, (b1.map articleOf).dropLast,
        ((b1.map articleOf).getLast?).toList ++ (b2.map articleOf).dropLast,
        [], some SecName.four_star, (b2.map articleOf).getLast?⟩ :=
    processLines_block b2 _ .four_star hb2 rfl hfour
  have h8 : parseLine ⟨d3, sm3, (b1.map articleOf).dropLast,
        ((b1.map articleOf).getLast?).toList ++ (b2.map articleOf).dropLast,
        [], some SecName.four_star, (b2.map articleOf).getLast?⟩ "## 值得一看" =
      some ⟨d3, sm3, (b1.map articleOf).dropLast,
        ((b1.map articleOf).getLast?).toList ++ (b2.map articleOf).dropLast,
        ((b2.map articleOf).getLast?).toList,
        some SecName.worth_viewing, none⟩ := by
    rw [parseLine_worthHeader, enterTier_worth_toList]
    rfl
  have h9 : processLines ⟨d3, sm3, (b1.map articleOf).dropLast,
        ((b1.map articleOf).getLast?).toList ++ (b2.map articleOf).dropLast,
        ((b2.map articleOf).getLast?).toList,
        some SecName.worth_viewing, none⟩ ((b3.map renderChunk).flatten) =
      some ⟨d3, sm3, (b1.map articleOf).dropLast,
        ((b1.map articleOf).getLast?).toList ++ (b2.map articleOf).dropLast,
        ((b2.map articleOf).getLast?).toList ++ (b3.map articleOf).dropLast,
        some SecName.worth_viewing, (b3.map articleOf).getLast?⟩ :=
    processLines_block b3 _ .worth_viewing hb3 rfl hworth
  have hL : canonicalLines pre sums b1 b2 b3 =
      pre ++ ("## 导读" :: (sums ++ ("## 五星推荐" ::
        ((b1.map renderChunk).flatten ++ ("## 四星推荐" ::
          ((b2.map renderChunk).flatten ++ ("## 值得一看" ::
            (b3.map renderChunk).flatten))))))) := by
    simp [canonicalLines]
  refine ⟨⟨d3, "", sm3, (b1.map articleOf).dropLast,
    ((b1.map articleOf).getLast?).toList ++ (b2.map articleOf).dropLast,
    ((b2.map articleOf).getLast?).toList ++ b3.map articleOf⟩,
    ?_, rfl, rfl, rfl⟩
  show (processLines initState (canonicalLines pre sums b1 b2 b3)).map
      finalizeState = some _
  rw [hL, processLines_append, h1, Option.some_bind,
    processLines_cons_of _ _ _ h2,
    processLines_append, h3, Option.some_bind,
    processLines_cons_of _ _ _ h4,
    processLines_append, h5, Option.some_bind,
    processLines_cons_of _ _ _ h6,
    processLines_append, h7, Option.some_bind,
    processLines_cons_of _ _ _ h8,
    h9, Option.map_some', finalizeState_worth _ rfl]
  simp only [List.append_assoc, dropLast_append_getLast_toList]

/-- Witness for C4 at a concrete canonical input with chunks A, B in the
five-star section, C in the four-star section and D in the worth-viewing
section: five_star gets [A], four_star gets [B], worth_viewing gets
[C, D]. -/
theorem C4_canonical_order_witness :
    ∃ r, parse_lines (canonicalLines [] []
        [⟨"**[A](u)**", []⟩, ⟨"**[B](v)**", []⟩] [⟨"**[C](w)**", []⟩]
        [⟨"**[D](x)**", []⟩]) = some r ∧
      r.five_star =
        (([⟨"**[A](u)**", []⟩, ⟨"**[B](v)**", []⟩] : List Chunk).map
          articleOf).dropLast ∧
      r.four_star =
        ((([⟨"**[A](u)**", []⟩, ⟨"**[B](v)**", []⟩] : List Chunk).map
            articleOf).getLast?).toList ++
          (([⟨"**[C](w)**", []⟩] : List Chunk).map articleOf).dropLast ∧
      r.worth_viewing =
        ((([⟨"**[C](w)**", []⟩] : List Chunk).map
            articleOf).getLast?).toList ++
          ([⟨"**[D](x)**", []⟩] : List Chunk).map articleOf :=
  C4_canonical_order [] [] _ _ _ (by decide) (by decide) (by decide)
    (by decide) (by decide)

end DailyNews

